import Mathlib

/-!
# Verification of the Stella TIA core (`src/emucore/TIA.cxx`, `TIA.hxx`)

Shallow embedding of the TIA register/timing/pixel-generation engine of the
stella-lua repository, together with theorems settling the specification
claims about it.

Conventions used throughout:

* C++ `Int32`/`Int16` values are modelled as `Int`; `uInt8`/`uInt16`/`uInt32`
  values as `Nat`.  Where a C++ narrowing conversion matters (the `uInt8`
  truncation in `applyPreviousHMOVEMotion`), it is written explicitly as
  `% 256` (`Int.emod`).
* C++ `/` and `%` on signed ints truncate toward zero: they are `Int.tdiv`
  and `Int.tmod`.  C++ `>> 2` on a signed int is an arithmetic shift,
  i.e. flooring division by 4: `Int.fdiv _ 4`.
* The sentinel `0x7FFFFFFF` used by the source for "no HMOVE position
  recorded" is kept literally (`inactiveHMOVE`).
-/

namespace StellaTIA

/-- `#define SCANLINE_CLOCKS (3 * 76)` -/
def SCANLINE_CLOCKS : Int := 228

/-- `#define SCANLINE_PIXEL 160` -/
def SCANLINE_PIXEL : Int := 160

/-- `#define HBLANK_CLOCKS (SCANLINE_CLOCKS - SCANLINE_PIXEL)` -/
def HBLANK_CLOCKS : Int := 68

/-- The sentinel `0x7FFFFFFF` the source stores in `myCurrentHMOVEPos` /
`myPreviousHMOVEPos` when no HMOVE position is recorded. -/
def inactiveHMOVE : Int := 0x7FFFFFFF

/-- C++ arithmetic right shift by two on a signed integer (`x >> 2`),
which is flooring division by 4. -/
def sar2 (x : Int) : Int := Int.fdiv x 4

/-- `#define CLAMP_POS(reg) if(reg < 0) { reg += SCANLINE_PIXEL; }  reg %= SCANLINE_PIXEL;`
Note that `%` is C++ truncated remainder (`Int.tmod`), so a value below
`-160` would stay negative; the macro is only a clamp for values in
`[-160, 319]`. -/
def CLAMP_POS (p : Int) : Int :=
  let p := if p < 0 then p + SCANLINE_PIXEL else p
  p.tmod SCANLINE_PIXEL

/-- `hpos` as the source computes it at a write:
`(clock - myClockWhenFrameStarted) % SCANLINE_CLOCKS - HBLANK_CLOCKS`. -/
def hposAt (clock clockWhenFrameStarted : Int) : Int :=
  (clock - clockWhenFrameStarted).tmod SCANLINE_CLOCKS - HBLANK_CLOCKS

/-- The state of `TIA::AbstractMoveableTIAObject` that the horizontal-motion
machinery touches (field order follows the object's `save`). -/
structure Moveable where
  /-- `myHM` : horizontal motion register (top nibble, a `uInt8`). -/
  hm : Nat
  /-- `myVDEL` -/
  vdel : Bool
  /-- `myPos` : horizontal position register (an `Int16` in the source). -/
  pos : Int
  /-- `myMotionClock` -/
  motionClock : Int
  /-- `myStart` (saved/loaded but otherwise unused by the source) -/
  start : Int
  /-- `myHMmmr` : the "more motion required" latch. -/
  hmmmr : Bool
deriving DecidableEq

/-- `TIA::AbstractMoveableTIAObject::handleHM` (TIA.cxx:1943-1975).
`cur` is `myTia.myCurrentHMOVEPos`, `hpos` the horizontal position of the
write as computed on lines 1949-1950. -/
def handleHM (cur : Int) (hpos : Int) (value : Nat) (m : Moveable) : Moveable :=
  let value := value &&& 0xF0
  if m.hm = value then m
  else
    let m :=
      if cur ≠ inactiveHMOVE ∧ hpos < min (cur + 6 + m.motionClock * 4) 7 then
        let newMotion : Int := ((value ^^^ 0x80) >>> 4 : Nat)
        if newMotion > m.motionClock ∨ hpos ≤ min (cur + 6 + newMotion * 4) 7 then
          { m with pos := CLAMP_POS (m.pos - (newMotion - m.motionClock)),
                   motionClock := newMotion }
        else
          { m with pos := CLAMP_POS (m.pos - (15 - m.motionClock)),
                   motionClock := 15,
                   hmmmr := if value ≠ 0x70 ∧ value ≠ 0x80 then true else m.hmmmr }
      else m
    { m with hm := value }

/-- `TIA::AbstractMoveableTIAObject::handleHMOVE` (TIA.cxx:1977-2028). -/
def handleHMOVE (hpos : Int) (m : Moveable) : Moveable :=
  -- undo of already applied cycles from an active graphics latch
  let m :=
    if hpos + HBLANK_CLOCKS < HBLANK_CLOCKS ∧ m.hmmmr then
      let cycle_fix : Int := 17 - (hpos + HBLANK_CLOCKS + 7).tdiv 4
      { m with pos := (m.pos + cycle_fix).tmod SCANLINE_PIXEL }
    else m
  let m := { m with hmmmr := false }
  if hpos ≥ -5 ∧ hpos < 97 then
    -- HMOVE activities can be ignored
    { m with motionClock := 0 }
  else
    let mot : Int := ((m.hm ^^^ 0x80) >>> 4 : Nat)
    -- adjust number of graphics motion clocks for active display
    let mot :=
      if hpos ≥ 97 ∧ hpos < 151 then
        let skip_motclks := sar2 (SCANLINE_PIXEL - hpos - 6)
        if mot - skip_motclks < 0 then 0 else mot - skip_motclks
      else mot
    let mot :=
      if hpos ≥ -56 ∧ hpos < -5 then
        let max_motclks := sar2 (7 - (hpos + 5))
        if mot > max_motclks then max_motclks else mot
      else mot
    let m := { m with motionClock := mot }
    -- apply horizontal motion
    let m :=
      if hpos < -5 ∨ hpos ≥ 157 then
        { m with pos := m.pos + (8 - m.motionClock) }
      else m
    { m with pos := CLAMP_POS m.pos }

/-- `TIA::AbstractMoveableTIAObject::handlePendingMotions` (TIA.cxx:2103-2116);
`cur` is `myTia.myCurrentHMOVEPos`. -/
def handlePendingMotions (cur : Int) (m : Moveable) : Moveable :=
  let m :=
    if cur ≠ inactiveHMOVE ∧ (cur ≥ 97 ∧ cur < 157) then
      { m with pos := let p := m.pos - m.motionClock
                      if p < 0 then p + SCANLINE_PIXEL else p }
    else m
  if m.hmmmr then
    { m with pos := let p := m.pos - 17
                    if p < 0 then p + SCANLINE_PIXEL else p }
  else m

/-- `TIA::AbstractMoveableTIAObject::applyActiveHMOVEMotion` (TIA.cxx:2046-2058). -/
def applyActiveHMOVEMotion (cur : Int) (hpos : Int) (motionClock : Int)
    (pos : Int) : Int :=
  if hpos < min (cur + 6 + 16 * 4) 7 then
    let decrements_passed := sar2 (hpos - (cur + 4))
    let pos := pos + 8
    if motionClock - decrements_passed > 0 then
      let pos := pos - (motionClock - decrements_passed)
      if pos < 0 then pos + SCANLINE_PIXEL else pos
    else pos
  else pos

/-- `TIA::AbstractMoveableTIAObject::applyPreviousHMOVEMotion` (TIA.cxx:2061-2072).
`motclk_passed` is declared `uInt8` in the source, so the arithmetic shift
result is truncated to `[0, 255]` (`Int.emod _ 256`). -/
def applyPreviousHMOVEMotion (prev : Int) (hpos : Int) (hm : Nat)
    (pos : Int) : Int :=
  if prev ≠ inactiveHMOVE then
    let motclk : Int := ((hm ^^^ 0x80) >>> 4 : Nat)
    if hpos ≤ prev - SCANLINE_CLOCKS + 5 + motclk * 4 then
      let motclk_passed := (sar2 (hpos - (prev - SCANLINE_CLOCKS + 6))).emod 256
      pos - (motclk - motclk_passed)
    else pos
  else pos

/-- `TIA::AbstractMoveableTIAObject::handleRES` (TIA.cxx:2074-2096), with the
object-specific `getActiveHPos`/`getPreviousHPos` passed in.  `cur`/`prev`
are `myTia.myCurrentHMOVEPos`/`myTia.myPreviousHMOVEPos`. -/
def handleRES (cur prev : Int) (hpos : Int)
    (getActiveHPos getPreviousHPos : Int → Int) (m : Moveable) : Moveable :=
  let newx :=
    if cur ≠ inactiveHMOVE then
      applyActiveHMOVEMotion cur hpos m.motionClock (getActiveHPos hpos)
    else
      applyPreviousHMOVEMotion prev hpos m.hm (getPreviousHPos hpos)
  if newx ≠ m.pos then { m with pos := newx } else m

/-- `TIA::AbstractPlayer::getActiveHPos` (TIA.cxx:2228-2231). -/
def playerGetActiveHPos (hpos : Int) : Int :=
  if hpos < 7 then 3 else (hpos + 5).tmod SCANLINE_PIXEL

/-- `TIA::AbstractPlayer::getPreviousHPos` (TIA.cxx:2233-2236). -/
def playerGetPreviousHPos (hpos : Int) : Int :=
  if hpos < -2 then 3 else (hpos + 5).tmod SCANLINE_PIXEL

/-- `TIA::AbstractMissile::getActiveHPos` (TIA.cxx:2471-2474). -/
def missileGetActiveHPos (hpos : Int) : Int :=
  if hpos < 7 then 2 else (hpos + 4).tmod SCANLINE_PIXEL

/-- `TIA::AbstractMissile::getPreviousHPos` (TIA.cxx:2476-2479). -/
def missileGetPreviousHPos (hpos : Int) : Int :=
  if hpos < -1 then 2 else (hpos + 4).tmod SCANLINE_PIXEL

/-- `TIA::Ball::getActiveHPos` (TIA.cxx:2670-2673). -/
def ballGetActiveHPos (hpos : Int) : Int :=
  if hpos < 7 then 2 else (hpos + 4).tmod SCANLINE_PIXEL

/-- `TIA::Ball::getPreviousHPos` (TIA.cxx:2675-2678). -/
def ballGetPreviousHPos (hpos : Int) : Int :=
  if hpos < 0 then 2 else (hpos + 4).tmod SCANLINE_PIXEL

/-- `handleRES` as executed by the ball (`TIA::Ball` dispatch of `RESBL`). -/
def ballHandleRES (cur prev hpos : Int) (m : Moveable) : Moveable :=
  handleRES cur prev hpos ballGetActiveHPos ballGetPreviousHPos m

/-- A ball state that is perfectly reachable (position in range, HM register
`0x70`, no in-flight motion) used to exhibit the position-range violation. -/
def ballRangeBug : Moveable :=
  { hm := 0x70, vdel := false, pos := 2, motionClock := 0, start := 0, hmmmr := false }

/-- **C1.** The claimed invariant `0 ≤ position < 160` after every
position-mutating operation is violated by the code: with an HMOVE recorded
at `myPreviousHMOVEPos = 154` on the previous scanline and `HMBL = 0x70`, a
`RESBL` strobe at `hpos = -50` drives the ball's position register to `-9`
(the `applyPreviousHMOVEMotion` adjustment is applied without any clamp,
TIA.cxx:2061-2072 and 2074-2101). -/
theorem C1_position_invariant_violated :
    (ballHandleRES inactiveHMOVE 154 (-50) ballRangeBug).pos = -9 ∧
    ¬(0 ≤ (ballHandleRES inactiveHMOVE 154 (-50) ballRangeBug).pos ∧
      (ballHandleRES inactiveHMOVE 154 (-50) ballRangeBug).pos < 160) := by
  decide

/-- A moveable object with a pending motion clock, as left behind by an
earlier HMOVE outside the ignore window. -/
def hmoveIgnoreCex : Moveable :=
  { hm := 0, vdel := false, pos := 20, motionClock := 5, start := 0, hmmmr := false }

/-- **C4, counterexample.** An HMOVE strobed at `hpos = -3` (inside the
ignore window) does *not* leave every object's motion clock unchanged: the
code resets `myMotionClock` to `0` (TIA.cxx:1993-1996), so an object whose
motion clock was `5` changes. -/
theorem C4_counterexample :
    ¬((handleHMOVE (-3) hmoveIgnoreCex).pos = hmoveIgnoreCex.pos ∧
      (handleHMOVE (-3) hmoveIgnoreCex).motionClock = hmoveIgnoreCex.motionClock) := by
  decide

/-- **C4, amended.** An HMOVE strobed at `hpos = -3` leaves the object's
position unchanged provided its more-motion-required latch is clear, and
always resets its motion clock to `0` (rather than leaving it unchanged). -/
theorem C4_hmove_ignore_window (m : Moveable) (h : m.hmmmr = false) :
    (handleHMOVE (-3) m).pos = m.pos ∧ (handleHMOVE (-3) m).motionClock = 0 := by
  simp [handleHMOVE, h, HBLANK_CLOCKS]

/-- Witness instantiating `C4_hmove_ignore_window` at a concrete state. -/
theorem C4_hmove_ignore_window_witness :
    (handleHMOVE (-3) ballRangeBug).pos = ballRangeBug.pos ∧
    (handleHMOVE (-3) ballRangeBug).motionClock = 0 :=
  C4_hmove_ignore_window ballRangeBug (by decide)

/-- The state for the C5 counterexample: HMOVE recorded at `hpos = -6`,
motion clock `2` still in flight, more-motion-required latch already set by
an earlier write. -/
def hmForcedCex : Moveable :=
  { hm := 0, vdel := false, pos := 50, motionClock := 2, start := 0, hmmmr := true }

/-- **C5, counterexample.** Writing `0x80` to the HM register of
`hmForcedCex` while the HMOVE strobed at `hpos = -6` is active (the write
lands at `hpos = 1`) takes the forced 15-clock branch — the motion clock
becomes 15 — yet the more-motion-required latch reads `true` afterwards,
although the written byte is the magic value `0x80`, for which the claim
asserts the latch is not set.  (The code only ever *sets* the latch on this
path, TIA.cxx:1964-1970; a previously set latch survives a magic write.) -/
theorem C5_counterexample :
    (handleHM (-6) 1 0x80 hmForcedCex).motionClock = 15 ∧
    (handleHM (-6) 1 0x80 hmForcedCex).hmmmr = true ∧
    ((0x80 &&& 0xF0 : Nat) = 0x70 ∨ (0x80 &&& 0xF0 : Nat) = 0x80) := by
  decide

/-- **C5, amended.** If a write to the HM register with a (masked) value
differing from the current one occurs while an HMOVE is active in its window
and cannot be honored by the in-flight decrement counter, the position is
decremented by `15 - motionClock` (mod 160), the motion clock becomes 15,
and the more-motion-required latch is set when the masked byte is neither
`0x70` nor `0x80` — and otherwise retains its previous value. -/
theorem C5_forced_fifteen_clock_shift (cur hpos : Int) (value : Nat) (m : Moveable)
    (hp0 : 0 ≤ m.pos) (hp1 : m.pos < 160)
    (hm0 : 0 ≤ m.motionClock) (hm1 : m.motionClock ≤ 15)
    (hne : m.hm ≠ value &&& 0xF0)
    (hcur : cur ≠ inactiveHMOVE)
    (hwin : hpos < min (cur + 6 + m.motionClock * 4) 7)
    (hfor : ¬((((((value &&& 0xF0) ^^^ 0x80) >>> 4 : Nat) : Int) > m.motionClock) ∨
              hpos ≤ min (cur + 6 + ((((value &&& 0xF0) ^^^ 0x80) >>> 4 : Nat) : Int) * 4) 7)) :
    (handleHM cur hpos value m).pos = (m.pos - (15 - m.motionClock)) % 160 ∧
    (handleHM cur hpos value m).motionClock = 15 ∧
    (handleHM cur hpos value m).hmmmr =
      (if value &&& 0xF0 ≠ 0x70 ∧ value &&& 0xF0 ≠ 0x80 then true else m.hmmmr) := by
  have hclamp : CLAMP_POS (m.pos - (15 - m.motionClock)) =
      (m.pos - (15 - m.motionClock)) % 160 := by
    unfold CLAMP_POS SCANLINE_PIXEL
    split
    · rw [Int.tmod_eq_emod (by omega) (by omega)]
      omega
    · rw [Int.tmod_eq_emod (by omega) (by omega)]
  have key : handleHM cur hpos value m =
      { hm := value &&& 0xF0, vdel := m.vdel,
        pos := CLAMP_POS (m.pos - (15 - m.motionClock)), motionClock := 15,
        start := m.start,
        hmmmr := if value &&& 0xF0 ≠ 0x70 ∧ value &&& 0xF0 ≠ 0x80 then true
                 else m.hmmmr } := by
    simp only [handleHM]
    split
    · exact absurd ‹m.hm = value &&& 0xF0› hne
    · split
      · split
        · exact absurd ‹_› hfor
        · rfl
      · exact absurd (And.intro hcur hwin) ‹_›
  rw [key]
  refine ⟨?_, ?_, ?_⟩
  · exact hclamp
  · rfl
  · rfl

/-- Witness instantiating `C5_forced_fifteen_clock_shift` at the concrete
counterexample state. -/
theorem C5_forced_fifteen_clock_shift_witness :
    (handleHM (-6) 1 0x80 hmForcedCex).pos = ((50 : Int) - (15 - 2)) % 160 ∧
    (handleHM (-6) 1 0x80 hmForcedCex).motionClock = 15 ∧
    (handleHM (-6) 1 0x80 hmForcedCex).hmmmr =
      (if (0x80 &&& 0xF0 : Nat) ≠ 0x70 ∧ (0x80 &&& 0xF0 : Nat) ≠ 0x80 then true
       else hmForcedCex.hmmmr) :=
  C5_forced_fifteen_clock_shift (-6) 1 0x80 hmForcedCex (by decide) (by decide)
    (by decide) (by decide) (by decide) (by decide) (by decide) (by decide)


/-- Modelled from the spec: the `TIABit` object-enable bit for player 0
(`TIATables.hxx`, which declares the `TIABit` enumeration, is not under
`src/`; the spec lists the six graphical objects whose enables are OR-ed). -/
def P0Bit : Nat := 0x01

/-- Modelled from the spec: `TIABit` bit for missile 0. -/
def M0Bit : Nat := 0x02

/-- Modelled from the spec: `TIABit` bit for player 1. -/
def P1Bit : Nat := 0x04

/-- Modelled from the spec: `TIABit` bit for missile 1. -/
def M1Bit : Nat := 0x08

/-- Modelled from the spec: `TIABit` bit for the ball. -/
def BLBit : Nat := 0x10

/-- Modelled from the spec: `TIABit` bit for the playfield. -/
def PFBit : Nat := 0x20

/-- Modelled from the spec: playfield 'score mode' bit. -/
def ScoreBit : Nat := 0x40

/-- Modelled from the spec: playfield priority bit. -/
def PriorityBit : Nat := 0x80

/-- Modelled from the spec: the 15 pairwise collision bits of the 16-bit
collision register (`CollisionBit` enumeration of the missing
`TIATables.hxx`); one distinct bit per unordered pair of objects. -/
def Cx_M0P1 : Nat := 0x0001

/-- Collision bit: missile 0 / player 0. -/
def Cx_M0P0 : Nat := 0x0002

/-- Collision bit: missile 1 / player 0. -/
def Cx_M1P0 : Nat := 0x0004

/-- Collision bit: missile 1 / player 1. -/
def Cx_M1P1 : Nat := 0x0008

/-- Collision bit: player 0 / playfield. -/
def Cx_P0PF : Nat := 0x0010

/-- Collision bit: player 0 / ball. -/
def Cx_P0BL : Nat := 0x0020

/-- Collision bit: player 1 / playfield. -/
def Cx_P1PF : Nat := 0x0040

/-- Collision bit: player 1 / ball. -/
def Cx_P1BL : Nat := 0x0080

/-- Collision bit: missile 0 / playfield. -/
def Cx_M0PF : Nat := 0x0100

/-- Collision bit: missile 0 / ball. -/
def Cx_M0BL : Nat := 0x0200

/-- Collision bit: missile 1 / playfield. -/
def Cx_M1PF : Nat := 0x0400

/-- Collision bit: missile 1 / ball. -/
def Cx_M1BL : Nat := 0x0800

/-- Collision bit: ball / playfield. -/
def Cx_BLPF : Nat := 0x1000

/-- Collision bit: player 0 / player 1. -/
def Cx_P0P1 : Nat := 0x2000

/-- Collision bit: missile 0 / missile 1. -/
def Cx_M0M1 : Nat := 0x4000

/-- Modelled from the spec: `TIATables::CollisionMask` — "indexed by the
8-bit 'which objects are enabled at this pixel' value, yields which of the
15 pairwise collision bits to set" (`TIATables.cxx` is not under `src/`).
A pair's bit is set exactly when both of its objects are enabled. -/
def collisionMask (enabled : Nat) : Nat :=
  (if enabled &&& M0Bit ≠ 0 ∧ enabled &&& P1Bit ≠ 0 then Cx_M0P1 else 0) |||
  (if enabled &&& M0Bit ≠ 0 ∧ enabled &&& P0Bit ≠ 0 then Cx_M0P0 else 0) |||
  (if enabled &&& M1Bit ≠ 0 ∧ enabled &&& P0Bit ≠ 0 then Cx_M1P0 else 0) |||
  (if enabled &&& M1Bit ≠ 0 ∧ enabled &&& P1Bit ≠ 0 then Cx_M1P1 else 0) |||
  (if enabled &&& P0Bit ≠ 0 ∧ enabled &&& PFBit ≠ 0 then Cx_P0PF else 0) |||
  (if enabled &&& P0Bit ≠ 0 ∧ enabled &&& BLBit ≠ 0 then Cx_P0BL else 0) |||
  (if enabled &&& P1Bit ≠ 0 ∧ enabled &&& PFBit ≠ 0 then Cx_P1PF else 0) |||
  (if enabled &&& P1Bit ≠ 0 ∧ enabled &&& BLBit ≠ 0 then Cx_P1BL else 0) |||
  (if enabled &&& M0Bit ≠ 0 ∧ enabled &&& PFBit ≠ 0 then Cx_M0PF else 0) |||
  (if enabled &&& M0Bit ≠ 0 ∧ enabled &&& BLBit ≠ 0 then Cx_M0BL else 0) |||
  (if enabled &&& M1Bit ≠ 0 ∧ enabled &&& PFBit ≠ 0 then Cx_M1PF else 0) |||
  (if enabled &&& M1Bit ≠ 0 ∧ enabled &&& BLBit ≠ 0 then Cx_M1BL else 0) |||
  (if enabled &&& BLBit ≠ 0 ∧ enabled &&& PFBit ≠ 0 then Cx_BLPF else 0) |||
  (if enabled &&& P0Bit ≠ 0 ∧ enabled &&& P1Bit ≠ 0 then Cx_P0P1 else 0) |||
  (if enabled &&& M0Bit ≠ 0 ∧ enabled &&& M1Bit ≠ 0 then Cx_M0M1 else 0)

/-- The low-16-bit gating mask computed inside `TIA::toggleCollision`
(TIA.cxx:652-665): assume all collisions on, then selectively clear the five
pair bits of every object whose collision-enable bit is off. -/
def collisionMaskFromEnabled (enabled : Nat) : Nat :=
  let mask : Nat := 0xffff
  let mask := if enabled &&& P0Bit = 0 then
      mask &&& (0xffff ^^^ (Cx_M0P0 ||| Cx_M1P0 ||| Cx_P0PF ||| Cx_P0BL ||| Cx_P0P1))
    else mask
  let mask := if enabled &&& P1Bit = 0 then
      mask &&& (0xffff ^^^ (Cx_M0P1 ||| Cx_M1P1 ||| Cx_P1PF ||| Cx_P1BL ||| Cx_P0P1))
    else mask
  let mask := if enabled &&& M0Bit = 0 then
      mask &&& (0xffff ^^^ (Cx_M0P0 ||| Cx_M0P1 ||| Cx_M0PF ||| Cx_M0BL ||| Cx_M0M1))
    else mask
  let mask := if enabled &&& M1Bit = 0 then
      mask &&& (0xffff ^^^ (Cx_M1P0 ||| Cx_M1P1 ||| Cx_M1PF ||| Cx_M1BL ||| Cx_M0M1))
    else mask
  let mask := if enabled &&& BLBit = 0 then
      mask &&& (0xffff ^^^ (Cx_P0BL ||| Cx_P1BL ||| Cx_M0BL ||| Cx_M1BL ||| Cx_BLPF))
    else mask
  let mask := if enabled &&& PFBit = 0 then
      mask &&& (0xffff ^^^ (Cx_P0PF ||| Cx_P1PF ||| Cx_M0PF ||| Cx_M1PF ||| Cx_BLPF))
    else mask
  mask

/-- `TIA::toggleCollision` (TIA.cxx:642-671): returns the `on` result and the
new `myCollisionEnabledMask` (`~x` on a `uInt16` is `0xffff ^^^ x`). -/
def toggleCollision (b : Nat) (mode : Nat) (collisionEnabledMask : Nat) :
    Bool × Nat :=
  let enabled := collisionEnabledMask >>> 16
  let isOn : Bool :=
    if mode = 0 ∨ mode = 1 then decide (mode = 1) else decide (enabled &&& b = 0)
  let enabled := if isOn then enabled ||| b else enabled &&& (0xffff ^^^ b)
  (isOn, (enabled <<< 16) ||| collisionMaskFromEnabled enabled)

/-- The shape of `myCollisionEnabledMask` as (re)computed by
`toggleCollision`: the enabled-object set in the high 16 bits, the pair
gating mask in the low 16 bits (TIA.cxx:668). -/
def collisionEnabledFull (enabled : Nat) : Nat :=
  (enabled <<< 16) ||| collisionMaskFromEnabled enabled

/-- The per-frame collision accumulation performed by the rendering loop
(TIA.cxx:947): starting from a cleared register (reset or `CXCLR`), the mask
`TIATables::CollisionMask[enabled]` of every rendered pixel's
enabled-objects byte is OR-ed into `myCollision`. -/
def accumCollisions (pixels : List Nat) : Nat :=
  pixels.foldl (fun c e => c ||| collisionMask e) 0

/-- The collision-register read path of `TIA::peek` (TIA.cxx:1031-1074):
the data-bus value keeps only its low six bits, the collision register is
masked with the low 16 bits of `myCollisionEnabledMask` (the `(uInt16)`
cast), and the pair bits of the decoded register are forced into D7/D6. -/
def peekCX (addr dataBus collisionReg collisionEnabledMask : Nat) : Nat :=
  let value := 0x3F &&& dataBus
  let collision := collisionReg &&& (collisionEnabledMask &&& 0xFFFF)
  let a := addr &&& 0x0F
  if a = 0 then  -- CXM0P
    value ||| ((if collision &&& Cx_M0P1 ≠ 0 then 0x80 else 0) |||
               (if collision &&& Cx_M0P0 ≠ 0 then 0x40 else 0))
  else if a = 1 then  -- CXM1P
    value ||| ((if collision &&& Cx_M1P0 ≠ 0 then 0x80 else 0) |||
               (if collision &&& Cx_M1P1 ≠ 0 then 0x40 else 0))
  else if a = 2 then  -- CXP0FB
    value ||| ((if collision &&& Cx_P0PF ≠ 0 then 0x80 else 0) |||
               (if collision &&& Cx_P0BL ≠ 0 then 0x40 else 0))
  else if a = 3 then  -- CXP1FB
    value ||| ((if collision &&& Cx_P1PF ≠ 0 then 0x80 else 0) |||
               (if collision &&& Cx_P1BL ≠ 0 then 0x40 else 0))
  else if a = 4 then  -- CXM0FB
    value ||| ((if collision &&& Cx_M0PF ≠ 0 then 0x80 else 0) |||
               (if collision &&& Cx_M0BL ≠ 0 then 0x40 else 0))
  else if a = 5 then  -- CXM1FB
    value ||| ((if collision &&& Cx_M1PF ≠ 0 then 0x80 else 0) |||
               (if collision &&& Cx_M1BL ≠ 0 then 0x40 else 0))
  else if a = 6 then  -- CXBLPF
    (value &&& 0x7F) ||| (if collision &&& Cx_BLPF ≠ 0 then 0x80 else 0)
  else if a = 7 then  -- CXPPMM
    value ||| ((if collision &&& Cx_P0P1 ≠ 0 then 0x80 else 0) |||
               (if collision &&& Cx_M0M1 ≠ 0 then 0x40 else 0))
  else value

/-- The 15 object pairs: (bit index of object A, bit index of object B,
bit index of the pair's collision bit, read address, bit index within the
peeked value).  Object bit indices: P0=0, M0=1, P1=2, M1=3, BL=4, PF=5. -/
def collisionPairs : List (Nat × Nat × Nat × Nat × Nat) :=
  [(1, 2, 0, 0, 7), (1, 0, 1, 0, 6),
   (3, 0, 2, 1, 7), (3, 2, 3, 1, 6),
   (0, 5, 4, 2, 7), (0, 4, 5, 2, 6),
   (2, 5, 6, 3, 7), (2, 4, 7, 3, 6),
   (1, 5, 8, 4, 7), (1, 4, 9, 4, 6),
   (3, 5, 10, 5, 7), (3, 4, 11, 5, 6),
   (4, 5, 12, 6, 7),
   (0, 2, 13, 7, 7), (1, 3, 14, 7, 6)]

lemma and_bit_ne_zero (x k : Nat) : x &&& 2 ^ k ≠ 0 ↔ x.testBit k = true := by
  constructor
  · intro h
    obtain ⟨i, hi⟩ := Nat.ne_zero_implies_bit_true h
    simp only [Nat.testBit_and, Nat.testBit_two_pow, Bool.and_eq_true,
      decide_eq_true_eq] at hi
    obtain ⟨h1, rfl⟩ := hi
    exact h1
  · intro h h0
    have ht : (x &&& 2 ^ k).testBit k = true := by
      simp [Nat.testBit_and, h, Nat.testBit_two_pow]
    rw [h0] at ht
    simp at ht

lemma accum_testBit_aux (l : List Nat) (c0 : Nat) (k : Nat) :
    (l.foldl (fun c e => c ||| collisionMask e) c0).testBit k = true ↔
      (c0.testBit k = true ∨ ∃ e ∈ l, (collisionMask e).testBit k = true) := by
  induction l generalizing c0 with
  | nil => simp
  | cons a l ih =>
    simp only [List.foldl_cons, ih, Nat.testBit_or, Bool.or_eq_true,
      List.mem_cons]
    constructor
    · rintro (⟨h | h⟩ | ⟨e, he, h⟩)
      · exact Or.inl h
      · exact Or.inr ⟨a, Or.inl rfl, h⟩
      · exact Or.inr ⟨e, Or.inr he, h⟩
    · rintro (h | ⟨e, (rfl | he), h⟩)
      · exact Or.inl (Or.inl h)
      · exact Or.inl (Or.inr h)
      · exact Or.inr ⟨e, he, h⟩

lemma accum_testBit (pixels : List Nat) (k : Nat) :
    (accumCollisions pixels).testBit k = true ↔
      ∃ e ∈ pixels, (collisionMask e).testBit k = true := by
  unfold accumCollisions
  rw [accum_testBit_aux]
  simp

lemma pair_read_iff (pixels : List Nat) (en : Nat) (ia ib k : Nat)
    (hen : en < 64) (hpix : ∀ e ∈ pixels, e < 64) (hk : k < 16)
    (hcm : ∀ e < 64, (collisionMask e).testBit k = (e.testBit ia && e.testBit ib))
    (hce : ∀ x < 64, (collisionMaskFromEnabled x).testBit k =
        (x.testBit ia && x.testBit ib)) :
    ((accumCollisions pixels &&& (collisionEnabledFull en &&& 0xFFFF)) &&& 2 ^ k ≠ 0
      ↔ (en.testBit ia = true ∧ en.testBit ib = true ∧
         ∃ e ∈ pixels, e.testBit ia = true ∧ e.testBit ib = true)) := by
  rw [and_bit_ne_zero]
  have hffff : (0xFFFF : Nat).testBit k = true := by
    rw [show (0xFFFF : Nat) = 2 ^ 16 - 1 from rfl, Nat.testBit_two_pow_sub_one]
    simpa using hk
  have hfull : (collisionEnabledFull en).testBit k = (en.testBit ia && en.testBit ib) := by
    unfold collisionEnabledFull
    rw [Nat.testBit_or, Nat.testBit_shiftLeft, hce en hen]
    have : ¬(16 ≤ k) := by omega
    simp [this]
  simp only [Nat.testBit_and, hffff, hfull, Bool.and_true]
  rw [show ((accumCollisions pixels).testBit k &&
        (en.testBit ia && en.testBit ib)) = true ↔
      ((accumCollisions pixels).testBit k = true ∧
        (en.testBit ia && en.testBit ib) = true) from by simp]
  rw [accum_testBit]
  constructor
  · rintro ⟨⟨e, he, hbit⟩, hab⟩
    rw [hcm e (hpix e he)] at hbit
    simp only [Bool.and_eq_true] at hab hbit
    exact ⟨hab.1, hab.2, e, he, hbit.1, hbit.2⟩
  · rintro ⟨ha, hb, e, he, h1, h2⟩
    refine ⟨⟨e, he, ?_⟩, by simp [ha, hb]⟩
    rw [hcm e (hpix e he)]
    simp [h1, h2]


lemma testBit_forced_bits (v : Nat) (p q : Prop) [Decidable p] [Decidable q]
    (hv7 : v.testBit 7 = false) (hv6 : v.testBit 6 = false) :
    (((v ||| ((if p then (0x80:Nat) else 0) ||| (if q then (0x40:Nat) else 0))).testBit 7 = true
        ↔ p) ∧
     ((v ||| ((if p then (0x80:Nat) else 0) ||| (if q then (0x40:Nat) else 0))).testBit 6 = true
        ↔ q)) := by
  have t1 : (0x80:Nat).testBit 7 = true := by decide
  have t2 : (0x40:Nat).testBit 7 = false := by decide
  have t3 : (0:Nat).testBit 7 = false := by decide
  have t4 : (0x80:Nat).testBit 6 = false := by decide
  have t5 : (0x40:Nat).testBit 6 = true := by decide
  have t6 : (0:Nat).testBit 6 = false := by decide
  constructor
  · simp only [Nat.testBit_or, hv7, Bool.false_or]
    split_ifs <;> simp_all [t1, t2, t3]
  · simp only [Nat.testBit_or, hv6, Bool.false_or]
    split_ifs <;> simp_all [t4, t5, t6]

lemma testBit_forced_single (v : Nat) (p : Prop) [Decidable p]
    (hv7 : v.testBit 7 = false) :
    ((v ||| (if p then (0x80:Nat) else 0)).testBit 7 = true ↔ p) := by
  have t1 : (0x80:Nat).testBit 7 = true := by decide
  have t3 : (0:Nat).testBit 7 = false := by decide
  simp only [Nat.testBit_or, hv7, Bool.false_or]
  split_ifs <;> simp_all [t1, t3]

lemma masked_dataBus_testBit7 (d : Nat) : ((0x3F &&& d : Nat)).testBit 7 = false := by
  simp [Nat.testBit_and, show (0x3F:Nat).testBit 7 = false from by decide]

lemma masked_dataBus_testBit6 (d : Nat) : ((0x3F &&& d : Nat)).testBit 6 = false := by
  simp [Nat.testBit_and, show (0x3F:Nat).testBit 6 = false from by decide]

lemma masked_dataBus127_testBit7 (d : Nat) :
    (((0x3F &&& d : Nat)) &&& 0x7F).testBit 7 = false := by
  simp [Nat.testBit_and, show (0x3F:Nat).testBit 7 = false from by decide]

set_option maxHeartbeats 1600000 in
/-- **C2.** For every pair of objects among player0, player1, missile0,
missile1, ball, playfield: the pair's collision bit reads as set (through
`TIA::peek` of the pair's collision register) if and only if both objects
are collision-enabled and both were enabled at some common rendered
horizontal position of the frame (whose per-pixel enabled-object bytes are
`pixels`, accumulated from a cleared collision register); in particular
when either object's collision-enable flag is off, the bit reads as cleared
regardless of overlap. -/
theorem C2_collision_pair_read (pixels : List Nat) (en dataBus ia ib k addr r : Nat)
    (hpair : (ia, ib, k, addr, r) ∈ collisionPairs)
    (hen : en < 64) (hpix : ∀ e ∈ pixels, e < 64) :
    ((peekCX addr dataBus (accumCollisions pixels) (collisionEnabledFull en)).testBit r = true
      ↔ (en.testBit ia = true ∧ en.testBit ib = true ∧
         ∃ e ∈ pixels, e.testBit ia = true ∧ e.testBit ib = true)) := by
  simp only [collisionPairs, List.mem_cons, List.not_mem_nil, or_false,
    Prod.mk.injEq] at hpair
  rcases hpair with h|h|h|h|h|h|h|h|h|h|h|h|h|h|h
  · obtain ⟨rfl, rfl, rfl, rfl, rfl⟩ := h
    have hx := pair_read_iff pixels en 1 2 0 hen hpix (by decide) (by decide) (by decide)
    rw [show (2:Nat) ^ 0 = Cx_M0P1 from rfl] at hx
    exact Iff.trans ((testBit_forced_bits (0x3F &&& dataBus) _ _
      (masked_dataBus_testBit7 dataBus) (masked_dataBus_testBit6 dataBus)).1) hx
  · obtain ⟨rfl, rfl, rfl, rfl, rfl⟩ := h
    have hx := pair_read_iff pixels en 1 0 1 hen hpix (by decide) (by decide) (by decide)
    rw [show (2:Nat) ^ 1 = Cx_M0P0 from rfl] at hx
    exact Iff.trans ((testBit_forced_bits (0x3F &&& dataBus) _ _
      (masked_dataBus_testBit7 dataBus) (masked_dataBus_testBit6 dataBus)).2) hx
  · obtain ⟨rfl, rfl, rfl, rfl, rfl⟩ := h
    have hx := pair_read_iff pixels en 3 0 2 hen hpix (by decide) (by decide) (by decide)
    rw [show (2:Nat) ^ 2 = Cx_M1P0 from rfl] at hx
    exact Iff.trans ((testBit_forced_bits (0x3F &&& dataBus) _ _
      (masked_dataBus_testBit7 dataBus) (masked_dataBus_testBit6 dataBus)).1) hx
  · obtain ⟨rfl, rfl, rfl, rfl, rfl⟩ := h
    have hx := pair_read_iff pixels en 3 2 3 hen hpix (by decide) (by decide) (by decide)
    rw [show (2:Nat) ^ 3 = Cx_M1P1 from rfl] at hx
    exact Iff.trans ((testBit_forced_bits (0x3F &&& dataBus) _ _
      (masked_dataBus_testBit7 dataBus) (masked_dataBus_testBit6 dataBus)).2) hx
  · obtain ⟨rfl, rfl, rfl, rfl, rfl⟩ := h
    have hx := pair_read_iff pixels en 0 5 4 hen hpix (by decide) (by decide) (by decide)
    rw [show (2:Nat) ^ 4 = Cx_P0PF from rfl] at hx
    exact Iff.trans ((testBit_forced_bits (0x3F &&& dataBus) _ _
      (masked_dataBus_testBit7 dataBus) (masked_dataBus_testBit6 dataBus)).1) hx
  · obtain ⟨rfl, rfl, rfl, rfl, rfl⟩ := h
    have hx := pair_read_iff pixels en 0 4 5 hen hpix (by decide) (by decide) (by decide)
    rw [show (2:Nat) ^ 5 = Cx_P0BL from rfl] at hx
    exact Iff.trans ((testBit_forced_bits (0x3F &&& dataBus) _ _
      (masked_dataBus_testBit7 dataBus) (masked_dataBus_testBit6 dataBus)).2) hx
  · obtain ⟨rfl, rfl, rfl, rfl, rfl⟩ := h
    have hx := pair_read_iff pixels en 2 5 6 hen hpix (by decide) (by decide) (by decide)
    rw [show (2:Nat) ^ 6 = Cx_P1PF from rfl] at hx
    exact Iff.trans ((testBit_forced_bits (0x3F &&& dataBus) _ _
      (masked_dataBus_testBit7 dataBus) (masked_dataBus_testBit6 dataBus)).1) hx
  · obtain ⟨rfl, rfl, rfl, rfl, rfl⟩ := h
    have hx := pair_read_iff pixels en 2 4 7 hen hpix (by decide) (by decide) (by decide)
    rw [show (2:Nat) ^ 7 = Cx_P1BL from rfl] at hx
    exact Iff.trans ((testBit_forced_bits (0x3F &&& dataBus) _ _
      (masked_dataBus_testBit7 dataBus) (masked_dataBus_testBit6 dataBus)).2) hx
  · obtain ⟨rfl, rfl, rfl, rfl, rfl⟩ := h
    have hx := pair_read_iff pixels en 1 5 8 hen hpix (by decide) (by decide) (by decide)
    rw [show (2:Nat) ^ 8 = Cx_M0PF from rfl] at hx
    exact Iff.trans ((testBit_forced_bits (0x3F &&& dataBus) _ _
      (masked_dataBus_testBit7 dataBus) (masked_dataBus_testBit6 dataBus)).1) hx
  · obtain ⟨rfl, rfl, rfl, rfl, rfl⟩ := h
    have hx := pair_read_iff pixels en 1 4 9 hen hpix (by decide) (by decide) (by decide)
    rw [show (2:Nat) ^ 9 = Cx_M0BL from rfl] at hx
    exact Iff.trans ((testBit_forced_bits (0x3F &&& dataBus) _ _
      (masked_dataBus_testBit7 dataBus) (masked_dataBus_testBit6 dataBus)).2) hx
  · obtain ⟨rfl, rfl, rfl, rfl, rfl⟩ := h
    have hx := pair_read_iff pixels en 3 5 10 hen hpix (by decide) (by decide) (by decide)
    rw [show (2:Nat) ^ 10 = Cx_M1PF from rfl] at hx
    exact Iff.trans ((testBit_forced_bits (0x3F &&& dataBus) _ _
      (masked_dataBus_testBit7 dataBus) (masked_dataBus_testBit6 dataBus)).1) hx
  · obtain ⟨rfl, rfl, rfl, rfl, rfl⟩ := h
    have hx := pair_read_iff pixels en 3 4 11 hen hpix (by decide) (by decide) (by decide)
    rw [show (2:Nat) ^ 11 = Cx_M1BL from rfl] at hx
    exact Iff.trans ((testBit_forced_bits (0x3F &&& dataBus) _ _
      (masked_dataBus_testBit7 dataBus) (masked_dataBus_testBit6 dataBus)).2) hx
  · obtain ⟨rfl, rfl, rfl, rfl, rfl⟩ := h
    have hx := pair_read_iff pixels en 4 5 12 hen hpix (by decide) (by decide) (by decide)
    rw [show (2:Nat) ^ 12 = Cx_BLPF from rfl] at hx
    exact Iff.trans (testBit_forced_single ((0x3F &&& dataBus) &&& 0x7F) _
      (masked_dataBus127_testBit7 dataBus)) hx
  · obtain ⟨rfl, rfl, rfl, rfl, rfl⟩ := h
    have hx := pair_read_iff pixels en 0 2 13 hen hpix (by decide) (by decide) (by decide)
    rw [show (2:Nat) ^ 13 = Cx_P0P1 from rfl] at hx
    exact Iff.trans ((testBit_forced_bits (0x3F &&& dataBus) _ _
      (masked_dataBus_testBit7 dataBus) (masked_dataBus_testBit6 dataBus)).1) hx
  · obtain ⟨rfl, rfl, rfl, rfl, rfl⟩ := h
    have hx := pair_read_iff pixels en 1 3 14 hen hpix (by decide) (by decide) (by decide)
    rw [show (2:Nat) ^ 14 = Cx_M0M1 from rfl] at hx
    exact Iff.trans ((testBit_forced_bits (0x3F &&& dataBus) _ _
      (masked_dataBus_testBit7 dataBus) (masked_dataBus_testBit6 dataBus)).2) hx

/-- Witness instantiating `C2_collision_pair_read`: with all objects
collision-enabled and one rendered pixel where missile 0 and player 1
overlap, the CXM0P D7 bit reads as set. -/
theorem C2_collision_pair_read_witness :
    ((peekCX 0 0 (accumCollisions [6]) (collisionEnabledFull 63)).testBit 7 = true
      ↔ ((63:Nat).testBit 1 = true ∧ (63:Nat).testBit 2 = true ∧
         ∃ e ∈ [6], Nat.testBit e 1 = true ∧ Nat.testBit e 2 = true)) :=
  C2_collision_pair_read [6] 63 0 1 2 0 0 7 (by decide) (by decide)
    (by decide)


/-- Modelled from the spec: the `TIAColor` indices into the 8-entry
`myColor` array (enumeration in the missing `TIATables.hxx`). -/
def P0Color : Nat := 0

/-- Color-array index for player 1 / missile 1 etc. -/
def P1Color : Nat := 1

/-- Color-array index for the playfield. -/
def PFColor : Nat := 2

/-- Color-array index for the background. -/
def BKColor : Nat := 3

/-- Color-array index for missile 0. -/
def M0Color : Nat := 4

/-- Color-array index for missile 1. -/
def M1Color : Nat := 5

/-- Color-array index for the ball. -/
def BLColor : Nat := 6

/-- Color-array index for the HMOVE-blank color. -/
def HBLANKColor : Nat := 7

/-- `TIA::AbstractPlayer` state (TIA.hxx). -/
structure Player where
  /-- the shared moveable-object state -/
  core : Moveable
  /-- `myGRP` -/
  grp : Nat
  /-- `myDGRP` -/
  dgrp : Nat
  /-- `myNUSIZ` -/
  nusiz : Nat
  /-- `myREFP` -/
  refp : Bool
  /-- `mySuppress` -/
  suppress : Nat
  /-- `myCurrentGRP` -/
  currentGRP : Nat
deriving DecidableEq

/-- `TIA::AbstractMissile` state (TIA.hxx). -/
structure Missile where
  /-- the shared moveable-object state -/
  core : Moveable
  /-- `myENABLE` -/
  enable : Bool
  /-- `myNUSIZ` -/
  nusiz : Nat
  /-- `myRESMP` -/
  resmp : Bool
deriving DecidableEq

/-- `TIA::Ball` state (TIA.hxx). -/
structure Ball where
  /-- the shared moveable-object state -/
  core : Moveable
  /-- `myENABLE` -/
  enable : Bool
  /-- `myCTRLPF` -/
  ctrlpf : Nat
  /-- `myDENABLE` -/
  denable : Bool
  /-- `myCurrentEnabled` -/
  currentEnabled : Bool
deriving DecidableEq

/-- `TIA::Playfield` state (TIA.hxx). -/
structure Playfield where
  /-- `myCTRLPF` -/
  ctrlpf : Nat
  /-- `myPF` : the assembled 20-bit pattern -/
  pf : Nat
  /-- `myPriorityAndScore` -/
  priorityAndScore : Nat
deriving DecidableEq

/-- The TIA chip state: the fields of class `TIA` (TIA.hxx) that the
operations verified here read or write. -/
structure TiaState where
  /-- `myClockWhenFrameStarted` -/
  clockWhenFrameStarted : Int
  /-- `myClockStartDisplay` -/
  clockStartDisplay : Int
  /-- `myClockStopDisplay` -/
  clockStopDisplay : Int
  /-- `myClockAtLastUpdate` -/
  clockAtLastUpdate : Int
  /-- `myClocksToEndOfScanLine` -/
  clocksToEndOfScanLine : Int
  /-- `myVSYNCFinishClock` -/
  vsyncFinishClock : Int
  /-- `myFramePointer`, as an index into the frame buffer -/
  framePointer : Nat
  /-- `myFramePointerClocks` -/
  framePointerClocks : Int
  /-- `myCurrentFrameBuffer` contents -/
  fb : Nat → Nat
  /-- `myColor` (8 entries, indexed by the `TIAColor` indices) -/
  colors : Nat → Nat
  /-- `myVSYNC` -/
  vsync : Nat
  /-- `myVBLANK` -/
  vblank : Nat
  /-- `myCollision` -/
  collision : Nat
  /-- `myCollisionEnabledMask` -/
  collisionEnabledMask : Nat
  /-- `myDisabledObjects` -/
  disabledObjects : Nat
  /-- `myAllowHMOVEBlanks` -/
  allowHMOVEBlanks : Bool
  /-- `myDumpEnabled` -/
  dumpEnabled : Bool
  /-- `myDumpDisabledCycle` -/
  dumpDisabledCycle : Int
  /-- `myCurrentHMOVEPos` -/
  currentHMOVEPos : Int
  /-- `myPreviousHMOVEPos` -/
  previousHMOVEPos : Int
  /-- `myHMOVEBlankEnabled` -/
  hmoveBlankEnabled : Bool
  /-- `myFrameCounter` -/
  frameCounter : Nat
  /-- `myPALFrameCounter` -/
  palFrameCounter : Nat
  /-- `myScanlineCountForLastFrame` -/
  scanlineCountForLastFrame : Nat
  /-- `myPartialFrameFlag` -/
  partialFrameFlag : Bool
  /-- the halt request the TIA sends the CPU (`mySystem->m6502().stop()`) -/
  cpuHalted : Bool
  /-- `myMaximumNumberOfScanlines` -/
  maximumNumberOfScanlines : Int
  /-- `myINPT4` -/
  inpt4 : Nat
  /-- `myINPT5` -/
  inpt5 : Nat
  /-- `myStartScanline` -/
  startScanline : Int
  /-- `myPlayer0` -/
  player0 : Player
  /-- `myPlayer1` -/
  player1 : Player
  /-- `myMissile0` -/
  missile0 : Missile
  /-- `myMissile1` -/
  missile1 : Missile
  /-- `myBall` -/
  ball : Ball
  /-- `myPlayfield` -/
  playfield : Playfield

/-- Pointwise update of a frame buffer modelled as a function. -/
def fnUpdate (f : Nat → Nat) (i : Nat) (v : Nat) : Nat → Nat :=
  fun j => if j = i then v else f j

/-- `memset(f + start, v, n)` on a frame buffer modelled as a function. -/
def memsetFB (f : Nat → Nat) (start n : Nat) (v : Nat) : Nat → Nat :=
  fun j => if start ≤ j ∧ j < start + n then v else f j

/-- Modelled from the spec: the copy offsets of a NUSIZ copy/size code
(the position/size mask tables live in `TIATables.cxx`, not under `src/`;
the spec fixes 1/2/3 copies at close/medium/wide spacing). -/
def nusizCopies (nusiz : Nat) : List Nat :=
  match nusiz &&& 7 with
  | 0 => [0]
  | 1 => [0, 16]
  | 2 => [0, 32]
  | 3 => [0, 16, 32]
  | 4 => [0, 64]
  | 5 => [0]
  | 6 => [0, 32, 64]
  | _ => [0]

/-- Modelled from the spec: player width for a NUSIZ code (double size for
code 5, quad for code 7, normal otherwise). -/
def playerWidth (nusiz : Nat) : Nat :=
  match nusiz &&& 7 with
  | 5 => 2
  | 7 => 4
  | _ => 1

/-- Modelled from the spec: "is this object's output enabled at horizontal
position X" for a player (`AbstractPlayer::getEnabled`, whose body is in the
missing part of the sources): the current (possibly reflected) graphics
pattern `myCurrentGRP` is scanned at the pixel offset from the position
register, per copy, with the first copy suppressed when `mySuppress` is set. -/
def playerEnabledAt (p : Player) (hpos : Nat) : Bool :=
  let r : Nat := (((hpos : Int) - p.core.pos).emod 160).toNat
  let w := playerWidth p.nusiz
  decide (∃ i < (nusizCopies p.nusiz).length,
    (i ≠ 0 ∨ p.suppress = 0) ∧
    ((nusizCopies p.nusiz).getD i 0 ≤ r ∧ r < (nusizCopies p.nusiz).getD i 0 + 8 * w) ∧
    p.currentGRP.testBit (7 - (r - (nusizCopies p.nusiz).getD i 0) / w) = true)

/-- Modelled from the spec: missile enable at a horizontal position, given
the effective start position and size index (shared by the normal and the
`HMmmr`-stretched cases of `AbstractMissile::updateMask`, TIA.cxx:2488-2515). -/
def missileStdEnabled (m : Missile) (posAdj : Int) (sizeIdx : Nat) (hpos : Nat) : Bool :=
  let r : Nat := (((hpos : Int) - posAdj).emod 160).toNat
  let w := (1 : Nat) <<< sizeIdx
  decide (m.enable = true ∧ m.resmp = false ∧
    ∃ o ∈ nusizCopies m.nusiz, o ≤ r ∧ r < o + w)

/-- Missile enable at a horizontal position, including the
more-motion-required display quirk of `AbstractMissile::updateMask`
(TIA.cxx:2488-2515): position ≡ 2 (mod 4) disables the missile for the
line, position ≡ 3 (mod 4) widens it and shifts it one pixel left. -/
def missileEnabledAt (m : Missile) (hpos : Nat) : Bool :=
  if m.core.hmmmr then
    if m.core.pos.tmod 4 = 3 then
      missileStdEnabled m (m.core.pos - 1) (((m.nusiz >>> 4) &&& 3) ||| 1) hpos
    else if m.core.pos.tmod 4 = 2 then
      false
    else
      missileStdEnabled m m.core.pos ((m.nusiz >>> 4) &&& 3) hpos
  else
    missileStdEnabled m m.core.pos ((m.nusiz >>> 4) &&& 3) hpos

/-- Modelled from the spec: ball enable at a horizontal position
(`Ball::updateMask`, size from CTRLPF bits 4-5, gated by the
current-enabled latch). -/
def ballEnabledAt (b : Ball) (hpos : Nat) : Bool :=
  let r : Nat := (((hpos : Int) - b.core.pos).emod 160).toNat
  let w := (1 : Nat) <<< ((b.ctrlpf >>> 4) &&& 3)
  decide (b.currentEnabled = true ∧ r < w)

/-- Modelled from the spec: which of the 20 playfield pattern bits feeds a
pixel (`TIATables::PFMask`, not under `src/`): 4-pixel blocks, the right
half repeated or mirrored per the reflect bit. -/
def pfBitIndex (reflect : Bool) (hpos : Nat) : Nat :=
  if hpos < 80 then hpos / 4
  else if reflect then 19 - (hpos - 80) / 4
  else (hpos - 80) / 4

/-- Playfield enable at a horizontal position. -/
def playfieldEnabledAt (pf : Playfield) (hpos : Nat) : Bool :=
  pf.pf.testBit (pfBitIndex (decide (pf.ctrlpf &&& 1 ≠ 0)) hpos)

/-- The enabled-objects byte the render loop assembles for one pixel
(TIA.cxx:940-945), OR-ing each object's `getEnabled` in the fixed order
playfield, ball, player1, missile1, player0, missile0, each gated by
`myDisabledObjects`. -/
def getEnabledAll (s : TiaState) (hpos : Nat) : Nat :=
  (if s.disabledObjects &&& PFBit ≠ 0 ∧ playfieldEnabledAt s.playfield hpos = true
     then PFBit else 0) |||
  (if s.disabledObjects &&& BLBit ≠ 0 ∧ ballEnabledAt s.ball hpos = true
     then BLBit else 0) |||
  (if s.disabledObjects &&& P1Bit ≠ 0 ∧ playerEnabledAt s.player1 hpos = true
     then P1Bit else 0) |||
  (if s.disabledObjects &&& M1Bit ≠ 0 ∧ missileEnabledAt s.missile1 hpos = true
     then M1Bit else 0) |||
  (if s.disabledObjects &&& P0Bit ≠ 0 ∧ playerEnabledAt s.player0 hpos = true
     then P0Bit else 0) |||
  (if s.disabledObjects &&& M0Bit ≠ 0 ∧ missileEnabledAt s.missile0 hpos = true
     then M0Bit else 0)

/-- `TIA::toggleFixedColors`' priority encoder (TIA.cxx:701-748), in the
normal-colors mode set up by `toggleFixedColors(0)` (`on = false`):
maps the enabled-objects byte (together with the playfield priority/score
bits) to a `TIAColor` index; `x` selects the screen half for score mode. -/
def priorityEncoder (x : Nat) (enabled : Nat) : Nat :=
  if enabled &&& PriorityBit ≠ 0 then
    let color := BKColor
    let color := if enabled &&& M1Bit ≠ 0 then M1Color else color
    let color := if enabled &&& P1Bit ≠ 0 then P1Color else color
    let color := if enabled &&& M0Bit ≠ 0 then M0Color else color
    let color := if enabled &&& P0Bit ≠ 0 then P0Color else color
    let color := if enabled &&& BLBit ≠ 0 then BLColor else color
    let color := if enabled &&& PFBit ≠ 0 then PFColor else color
    color
  else
    let color := BKColor
    let color := if enabled &&& BLBit ≠ 0 then BLColor else color
    let color := if enabled &&& PFBit ≠ 0 then
        (if enabled &&& ScoreBit ≠ 0 then (if x = 0 then P0Color else P1Color)
         else PFColor)
      else color
    let color := if enabled &&& M1Bit ≠ 0 then M1Color else color
    let color := if enabled &&& P1Bit ≠ 0 then P1Color else color
    let color := if enabled &&& M0Bit ≠ 0 then M0Color else color
    let color := if enabled &&& P0Bit ≠ 0 then P0Color else color
    color

/-- The visible-pixel loop of `TIA::updateFrame` (TIA.cxx:930-950): for `n`
pixels starting at horizontal position `hpos0` and frame-buffer index
`s.framePointer`, accumulate collisions and write resolved colors.  The
loop reads object state fixed at loop entry (the masks are recomputed once
before it), so it closes over `s` and only threads the collision register
and the frame buffer. -/
def renderLoop (s : TiaState) (hpos0 : Nat) (n : Nat) : Nat × (Nat → Nat) :=
  (List.range n).foldl
    (fun acc i =>
      let hpos := hpos0 + i
      let enabled := getEnabledAll s hpos
      (acc.1 ||| collisionMask enabled,
       fnUpdate acc.2 (s.framePointer + i)
         (s.colors (priorityEncoder (if hpos < 80 then 0 else 1)
           (enabled ||| s.playfield.priorityAndScore)))))
    (s.collision, s.fb)

/-- The between-scanline bookkeeping of `TIA::updateFrame`
(TIA.cxx:844-872): drop the previous-HMOVE marker, apply every moveable
object's pending motions, and retire the current HMOVE position (recording
it as previous when it fell inside the visible-display window). -/
def interLine (s : TiaState) : TiaState :=
  let s := { s with previousHMOVEPos := inactiveHMOVE }
  let s := { s with
    player0 := { s.player0 with
      core := handlePendingMotions s.currentHMOVEPos s.player0.core },
    player1 := { s.player1 with
      core := handlePendingMotions s.currentHMOVEPos s.player1.core },
    missile0 := { s.missile0 with
      core := handlePendingMotions s.currentHMOVEPos s.missile0.core },
    missile1 := { s.missile1 with
      core := handlePendingMotions s.currentHMOVEPos s.missile1.core },
    ball := { s.ball with
      core := handlePendingMotions s.currentHMOVEPos s.ball.core } }
  if s.currentHMOVEPos ≠ inactiveHMOVE then
    let s := if 97 ≤ s.currentHMOVEPos ∧ s.currentHMOVEPos < 157 then
        { s with previousHMOVEPos := s.currentHMOVEPos }
      else s
    { s with currentHMOVEPos := inactiveHMOVE }
  else s

/-- The within-line clock advance of `TIA::updateFrame` (TIA.cxx:874-894):
either finish the current scanline or consume up to the target clock. -/
def clockAdvance (clock : Int) (s : TiaState) : TiaState :=
  if clock > s.clockAtLastUpdate + s.clocksToEndOfScanLine then
    { s with clockAtLastUpdate := s.clockAtLastUpdate + s.clocksToEndOfScanLine,
             clocksToEndOfScanLine := SCANLINE_CLOCKS }
  else
    { s with clocksToEndOfScanLine :=
               s.clocksToEndOfScanLine - (clock - s.clockAtLastUpdate),
             clockAtLastUpdate := clock }

/-- The pixel-updating part of a scanline iteration (TIA.cxx:915-953):
blank under VBLANK, render otherwise, then advance the frame pointer. -/
def renderPhase (cfs ctu : Int) (s : TiaState) : TiaState :=
  if ctu ≠ 0 then
    let s := { s with framePointerClocks := s.framePointerClocks + ctu }
    let s : TiaState :=
      if s.vblank &&& 0x02 ≠ 0 then
        { s with fb := memsetFB s.fb s.framePointer ctu.toNat 0 }
      else
        let cf := renderLoop s (cfs - HBLANK_CLOCKS).toNat ctu.toNat
        { s with collision := cf.1, fb := cf.2 }
    { s with framePointer := s.framePointer + ctu.toNat }
  else s

/-- The HMOVE-blank handling of a scanline iteration (TIA.cxx:955-964). -/
def blankPhase (cfs ctu : Int) (oldFramePointer : Nat) (s : TiaState) : TiaState :=
  if s.hmoveBlankEnabled ∧ cfs < HBLANK_CLOCKS + 8 then
    let s := { s with fb := (memsetFB s.fb oldFramePointer
                 ((HBLANK_CLOCKS + 8) - cfs).toNat (s.colors HBLANKColor)) }
    if ctu + cfs ≥ HBLANK_CLOCKS + 8 then { s with hmoveBlankEnabled := false }
    else s
  else s

/-- The end-of-scanline suppress reset (TIA.cxx:967-976). -/
def suppressPhase (s : TiaState) : TiaState :=
  if s.clocksToEndOfScanLine = SCANLINE_CLOCKS then
    { s with player0 := { s.player0 with suppress := 0 },
             player1 := { s.player1 with suppress := 0 } }
  else s

/-- One iteration of the scanline loop of `TIA::updateFrame`
(TIA.cxx:839-977): inter-line bookkeeping (except on the first iteration),
clock advance within the line, HBLANK skip, VBLANK blanking or pixel
rendering, HMOVE-blank handling, end-of-line suppress reset. -/
def lineStep (clock : Int) (isFirst : Bool) (s : TiaState) : TiaState :=
  let s : TiaState := if isFirst then s else interLine s
  let cfs0 : Int := SCANLINE_CLOCKS - s.clocksToEndOfScanLine
  let ctu0 : Int :=
    if clock > s.clockAtLastUpdate + s.clocksToEndOfScanLine then
      s.clocksToEndOfScanLine
    else clock - s.clockAtLastUpdate
  let oldFramePointer := s.framePointer
  let s : TiaState := clockAdvance clock s
  -- skip over as many horizontal blank clocks as we can
  let tmp : Int :=
    if cfs0 < HBLANK_CLOCKS then
      if HBLANK_CLOCKS - cfs0 < ctu0 then HBLANK_CLOCKS - cfs0 else ctu0
    else 0
  suppressPhase (blankPhase (cfs0 + tmp) (ctu0 - tmp) oldFramePointer
    (renderPhase (cfs0 + tmp) (ctu0 - tmp) s))

/-- The scanline loop of `TIA::updateFrame` (TIA.cxx:833-977), entered with
the already-clamped target clock: iterate `lineStep` from the scanline of
`myClockAtLastUpdate` through the scanline of the target. -/
def updateFrameLoop (s : TiaState) (clock : Int) : TiaState :=
  (List.range
      ((((clock - s.clockWhenFrameStarted).tdiv SCANLINE_CLOCKS -
         (s.clockAtLastUpdate - s.clockWhenFrameStarted).tdiv SCANLINE_CLOCKS).toNat)
        + 1)).foldl
    (fun st i => lineStep clock (i == 0) st) s

/-- `TIA::updateFrame` (TIA.cxx:821-978): idempotent catch-up renderer.
Returns immediately when the region is already rendered or out of range,
clamps the target clock to the stop-display clock, and walks the remaining
region one scanline iteration at a time. -/
def updateFrame (s : TiaState) (clock : Int) : TiaState :=
  if clock < s.clockStartDisplay ∨ s.clockAtLastUpdate ≥ s.clockStopDisplay ∨
      s.clockAtLastUpdate ≥ clock then s
  else
    updateFrameLoop s
      (if clock > s.clockStopDisplay then s.clockStopDisplay else clock)


/-- Bundle of the `TiaState` fields that `updateFrame` never writes, used
to transport facts about them across a rendering call. -/
structure QuietFields where
  clockWhenFrameStarted : Int
  clockStartDisplay : Int
  clockStopDisplay : Int
  vsyncFinishClock : Int
  vsync : Nat
  vblank : Nat
  collisionEnabledMask : Nat
  disabledObjects : Nat
  allowHMOVEBlanks : Bool
  dumpEnabled : Bool
  dumpDisabledCycle : Int
  frameCounter : Nat
  palFrameCounter : Nat
  scanlineCountForLastFrame : Nat
  partialFrameFlag : Bool
  cpuHalted : Bool
  maximumNumberOfScanlines : Int
  inpt4 : Nat
  inpt5 : Nat
  colors : Nat → Nat
  playfield : Playfield

/-- The projection of a `TiaState` onto the fields `updateFrame` never
writes. -/
def quiet (s : TiaState) : QuietFields :=
  { clockWhenFrameStarted := s.clockWhenFrameStarted
    clockStartDisplay := s.clockStartDisplay
    clockStopDisplay := s.clockStopDisplay
    vsyncFinishClock := s.vsyncFinishClock
    vsync := s.vsync
    vblank := s.vblank
    collisionEnabledMask := s.collisionEnabledMask
    disabledObjects := s.disabledObjects
    allowHMOVEBlanks := s.allowHMOVEBlanks
    dumpEnabled := s.dumpEnabled
    dumpDisabledCycle := s.dumpDisabledCycle
    frameCounter := s.frameCounter
    palFrameCounter := s.palFrameCounter
    scanlineCountForLastFrame := s.scanlineCountForLastFrame
    partialFrameFlag := s.partialFrameFlag
    cpuHalted := s.cpuHalted
    maximumNumberOfScanlines := s.maximumNumberOfScanlines
    inpt4 := s.inpt4
    inpt5 := s.inpt5
    colors := s.colors
    playfield := s.playfield }

lemma interLine_quiet (s : TiaState) : quiet (interLine s) = quiet s := by
  simp only [interLine, quiet]
  repeat' split
  all_goals rfl

lemma clockAdvance_quiet (clock : Int) (s : TiaState) :
    quiet (clockAdvance clock s) = quiet s := by
  unfold clockAdvance quiet
  split <;> rfl

lemma renderPhase_quiet (cfs ctu : Int) (s : TiaState) :
    quiet (renderPhase cfs ctu s) = quiet s := by
  simp only [renderPhase, quiet]
  repeat' split
  all_goals rfl

lemma blankPhase_quiet (cfs ctu : Int) (o : Nat) (s : TiaState) :
    quiet (blankPhase cfs ctu o s) = quiet s := by
  simp only [blankPhase, quiet]
  repeat' split
  all_goals rfl

lemma suppressPhase_quiet (s : TiaState) : quiet (suppressPhase s) = quiet s := by
  unfold suppressPhase quiet
  split <;> rfl

lemma lineStep_quiet (clock : Int) (b : Bool) (s : TiaState) :
    quiet (lineStep clock b s) = quiet s := by
  unfold lineStep
  cases b <;>
    simp [suppressPhase_quiet, blankPhase_quiet, renderPhase_quiet,
      clockAdvance_quiet, interLine_quiet]

lemma interLine_lastUpdate (s : TiaState) :
    (interLine s).clockAtLastUpdate = s.clockAtLastUpdate := by
  simp only [interLine]
  repeat' split
  all_goals rfl

lemma interLine_toEnd (s : TiaState) :
    (interLine s).clocksToEndOfScanLine = s.clocksToEndOfScanLine := by
  simp only [interLine]
  repeat' split
  all_goals rfl

lemma renderPhase_lastUpdate (cfs ctu : Int) (s : TiaState) :
    (renderPhase cfs ctu s).clockAtLastUpdate = s.clockAtLastUpdate := by
  simp only [renderPhase]
  repeat' split
  all_goals rfl

lemma renderPhase_toEnd (cfs ctu : Int) (s : TiaState) :
    (renderPhase cfs ctu s).clocksToEndOfScanLine = s.clocksToEndOfScanLine := by
  simp only [renderPhase]
  repeat' split
  all_goals rfl

lemma blankPhase_lastUpdate (cfs ctu : Int) (o : Nat) (s : TiaState) :
    (blankPhase cfs ctu o s).clockAtLastUpdate = s.clockAtLastUpdate := by
  simp only [blankPhase]
  repeat' split
  all_goals rfl

lemma blankPhase_toEnd (cfs ctu : Int) (o : Nat) (s : TiaState) :
    (blankPhase cfs ctu o s).clocksToEndOfScanLine = s.clocksToEndOfScanLine := by
  simp only [blankPhase]
  repeat' split
  all_goals rfl

lemma suppressPhase_lastUpdate (s : TiaState) :
    (suppressPhase s).clockAtLastUpdate = s.clockAtLastUpdate := by
  unfold suppressPhase
  split <;> rfl

lemma suppressPhase_toEnd (s : TiaState) :
    (suppressPhase s).clocksToEndOfScanLine = s.clocksToEndOfScanLine := by
  unfold suppressPhase
  split <;> rfl

lemma clockAdvance_lastUpdate (clock : Int) (s : TiaState) :
    (clockAdvance clock s).clockAtLastUpdate =
      if clock > s.clockAtLastUpdate + s.clocksToEndOfScanLine then
        s.clockAtLastUpdate + s.clocksToEndOfScanLine
      else clock := by
  unfold clockAdvance
  split <;> rfl

lemma clockAdvance_toEnd (clock : Int) (s : TiaState) :
    (clockAdvance clock s).clocksToEndOfScanLine =
      if clock > s.clockAtLastUpdate + s.clocksToEndOfScanLine then
        SCANLINE_CLOCKS
      else s.clocksToEndOfScanLine - (clock - s.clockAtLastUpdate) := by
  unfold clockAdvance
  split <;> rfl

lemma lineStep_lastUpdate (clock : Int) (b : Bool) (s : TiaState) :
    (lineStep clock b s).clockAtLastUpdate =
      if clock > s.clockAtLastUpdate + s.clocksToEndOfScanLine then
        s.clockAtLastUpdate + s.clocksToEndOfScanLine
      else clock := by
  unfold lineStep
  cases b <;>
    simp [suppressPhase_lastUpdate, blankPhase_lastUpdate, renderPhase_lastUpdate,
      clockAdvance_lastUpdate, interLine_lastUpdate, interLine_toEnd]

lemma lineStep_toEnd (clock : Int) (b : Bool) (s : TiaState) :
    (lineStep clock b s).clocksToEndOfScanLine =
      if clock > s.clockAtLastUpdate + s.clocksToEndOfScanLine then
        SCANLINE_CLOCKS
      else s.clocksToEndOfScanLine - (clock - s.clockAtLastUpdate) := by
  unfold lineStep
  cases b <;>
    simp [suppressPhase_toEnd, blankPhase_toEnd, renderPhase_toEnd,
      clockAdvance_toEnd, interLine_lastUpdate, interLine_toEnd]


lemma foldl_lineStep_quiet (clock : Int) (g : Nat → Bool) :
    ∀ (l : List Nat) (s : TiaState),
      quiet (l.foldl (fun st i => lineStep clock (g i) st) s) = quiet s := by
  intro l
  induction l with
  | nil => intro s; rfl
  | cons a l ih =>
    intro s
    simp only [List.foldl_cons]
    rw [ih, lineStep_quiet]

lemma foldl_lineStep_stable (clock : Int) (g : Nat → Bool) :
    ∀ (l : List Nat) (s : TiaState),
      s.clockAtLastUpdate = clock → 0 ≤ s.clocksToEndOfScanLine →
      (l.foldl (fun st i => lineStep clock (g i) st) s).clockAtLastUpdate = clock := by
  intro l
  induction l with
  | nil => intro s h _; exact h
  | cons a l ih =>
    intro s h h0
    simp only [List.foldl_cons]
    have hcond : ¬(clock > s.clockAtLastUpdate + s.clocksToEndOfScanLine) := by omega
    refine ih _ ?_ ?_
    · rw [lineStep_lastUpdate, if_neg hcond]
    · rw [lineStep_toEnd, if_neg hcond]
      omega

lemma foldl_lineStep_reaches (clock : Int) :
    ∀ (l : List Nat) (a : Nat) (g : Nat → Bool) (s : TiaState),
      s.clockAtLastUpdate < clock →
      0 < s.clocksToEndOfScanLine → s.clocksToEndOfScanLine ≤ SCANLINE_CLOCKS →
      clock ≤ s.clockAtLastUpdate + s.clocksToEndOfScanLine +
        SCANLINE_CLOCKS * (l.length : Int) →
      ((a :: l).foldl (fun st i => lineStep clock (g i) st) s).clockAtLastUpdate
        = clock := by
  intro l
  induction l with
  | nil =>
    intro a g s hlt h0 h228 hbound
    simp only [List.foldl_cons, List.foldl_nil]
    rw [lineStep_lastUpdate]
    simp only [List.length_nil] at hbound
    rw [if_neg (by omega)]
  | cons b l ih =>
    intro a g s hlt h0 h228 hbound
    simp only [List.foldl_cons]
    by_cases hbig : clock > s.clockAtLastUpdate + s.clocksToEndOfScanLine
    · have h1 : (lineStep clock (g a) s).clockAtLastUpdate =
          s.clockAtLastUpdate + s.clocksToEndOfScanLine := by
        rw [lineStep_lastUpdate, if_pos hbig]
      have h2 : (lineStep clock (g a) s).clocksToEndOfScanLine = SCANLINE_CLOCKS := by
        rw [lineStep_toEnd, if_pos hbig]
      have := ih b g (lineStep clock (g a) s) (by omega)
        (by rw [h2]; unfold SCANLINE_CLOCKS; omega)
        (by rw [h2]) ?_
      · simpa only [List.foldl_cons] using this
      · rw [h1, h2]
        simp only [List.length_cons] at hbound
        push_cast at hbound ⊢
        unfold SCANLINE_CLOCKS at hbound ⊢
        omega
    · have h1 : (lineStep clock (g a) s).clockAtLastUpdate = clock := by
        rw [lineStep_lastUpdate, if_neg hbig]
      have h2 : 0 ≤ (lineStep clock (g a) s).clocksToEndOfScanLine := by
        rw [lineStep_toEnd, if_neg hbig]
        omega
      exact foldl_lineStep_stable clock g (b :: l) _ h1 h2

/-- The timing-consistency invariant `frameReset`/`startFrame` establish and
`updateFrame` relies on: `myClocksToEndOfScanLine` is exactly the distance
from `myClockAtLastUpdate` to the end of its scanline. -/
def ClockConsistent (s : TiaState) : Prop :=
  s.clockWhenFrameStarted ≤ s.clockAtLastUpdate ∧
  s.clocksToEndOfScanLine =
    SCANLINE_CLOCKS -
      (s.clockAtLastUpdate - s.clockWhenFrameStarted).tmod SCANLINE_CLOCKS

lemma updateFrameLoop_lastUpdate (s : TiaState) (C : Int)
    (hle : s.clockWhenFrameStarted ≤ s.clockAtLastUpdate)
    (hmod : s.clocksToEndOfScanLine =
      228 - (s.clockAtLastUpdate - s.clockWhenFrameStarted) % 228)
    (hlt : s.clockAtLastUpdate < C) :
    (updateFrameLoop s C).clockAtLastUpdate = C := by
  unfold updateFrameLoop
  rw [List.range_succ_eq_map]
  refine foldl_lineStep_reaches C _ 0 _ s hlt ?_ ?_ ?_
  · rw [hmod]; omega
  · unfold SCANLINE_CLOCKS; rw [hmod]; omega
  · rw [List.length_map, List.length_range]
    unfold SCANLINE_CLOCKS
    rw [Int.tdiv_eq_ediv (by omega) (by omega), Int.tdiv_eq_ediv (by omega) (by omega)]
    rw [hmod]
    omega

lemma updateFrame_lastUpdate (s : TiaState) (clock : Int)
    (hinv : ClockConsistent s)
    (hguard : ¬(clock < s.clockStartDisplay ∨
      s.clockAtLastUpdate ≥ s.clockStopDisplay ∨ s.clockAtLastUpdate ≥ clock)) :
    (updateFrame s clock).clockAtLastUpdate =
      if clock > s.clockStopDisplay then s.clockStopDisplay else clock := by
  obtain ⟨hle, htoEnd⟩ := hinv
  have hmod : s.clocksToEndOfScanLine =
      228 - (s.clockAtLastUpdate - s.clockWhenFrameStarted) % 228 := by
    rw [htoEnd]
    unfold SCANLINE_CLOCKS
    rw [Int.tmod_eq_emod (by omega) (by omega)]
  push_neg at hguard
  obtain ⟨hstart, hstop, hlt⟩ := hguard
  unfold updateFrame
  rw [if_neg (by push_neg; exact ⟨hstart, hstop, hlt⟩)]
  exact updateFrameLoop_lastUpdate s _ hle hmod (by split <;> omega)

lemma updateFrame_quiet (s : TiaState) (clock : Int) :
    quiet (updateFrame s clock) = quiet s := by
  unfold updateFrame
  split
  · rfl
  · exact foldl_lineStep_quiet _ _ _ _

/-- **C3.** `updateFrame` is idempotent: rendering again to the same target
clock changes nothing — in particular no frame-buffer pixel, the collision
register and the last-updated clock are all unchanged by the second call.
The hypothesis is the clock-consistency invariant every reachable TIA state
satisfies (established by `frameReset`/`startFrame`). -/
theorem C3_updateFrame_idempotent (s : TiaState) (clock : Int)
    (hinv : ClockConsistent s) :
    updateFrame (updateFrame s clock) clock = updateFrame s clock := by
  by_cases hg : clock < s.clockStartDisplay ∨
      s.clockAtLastUpdate ≥ s.clockStopDisplay ∨ s.clockAtLastUpdate ≥ clock
  · have h1 : updateFrame s clock = s := by
      unfold updateFrame
      rw [if_pos hg]
    rw [h1, h1]
  · have hlast := updateFrame_lastUpdate s clock hinv hg
    have hq := updateFrame_quiet s clock
    have hstopq : (updateFrame s clock).clockStopDisplay = s.clockStopDisplay :=
      congrArg QuietFields.clockStopDisplay hq
    have hguard2 : (updateFrame s clock).clockAtLastUpdate ≥
        (updateFrame s clock).clockStopDisplay ∨
        (updateFrame s clock).clockAtLastUpdate ≥ clock := by
      rw [hlast, hstopq]
      split <;> omega
    conv_lhs => rw [updateFrame]
    rcases hguard2 with h | h
    · rw [if_pos (Or.inr (Or.inl h))]
    · rw [if_pos (Or.inr (Or.inr h))]


/-- A zeroed moveable-object state (the power-on state of
`AbstractMoveableTIAObject::reset`). -/
def moveable0 : Moveable :=
  { hm := 0, vdel := false, pos := 0, motionClock := 0, start := 0, hmmmr := false }

/-- A concrete power-on-like TIA state (the values `TIA::reset` and
`frameReset` establish at cycle 0), used to instantiate theorems. -/
def tiaS0 : TiaState :=
  { clockWhenFrameStarted := 0
    clockStartDisplay := 0
    clockStopDisplay := 456
    clockAtLastUpdate := 0
    clocksToEndOfScanLine := 228
    vsyncFinishClock := 0x7FFFFFFF
    framePointer := 0
    framePointerClocks := 0
    fb := fun _ => 0
    colors := fun _ => 0
    vsync := 0
    vblank := 0
    collision := 0
    collisionEnabledMask := 0xFFFFFFFF
    disabledObjects := 0xFF
    allowHMOVEBlanks := true
    dumpEnabled := false
    dumpDisabledCycle := 0
    currentHMOVEPos := 0x7FFFFFFF
    previousHMOVEPos := 0x7FFFFFFF
    hmoveBlankEnabled := false
    frameCounter := 0
    palFrameCounter := 0
    scanlineCountForLastFrame := 0
    partialFrameFlag := false
    cpuHalted := false
    maximumNumberOfScanlines := 262
    inpt4 := 0x80
    inpt5 := 0x80
    startScanline := 0
    player0 := { core := moveable0, grp := 0, dgrp := 0, nusiz := 0,
                 refp := false, suppress := 0, currentGRP := 0 }
    player1 := { core := moveable0, grp := 0, dgrp := 0, nusiz := 0,
                 refp := false, suppress := 0, currentGRP := 0 }
    missile0 := { core := moveable0, enable := false, nusiz := 0, resmp := false }
    missile1 := { core := moveable0, enable := false, nusiz := 0, resmp := false }
    ball := { core := moveable0, enable := false, ctrlpf := 0,
              denable := false, currentEnabled := false }
    playfield := { ctrlpf := 0, pf := 0, priorityAndScore := 0 } }

/-- Witness instantiating `C3_updateFrame_idempotent` at the concrete
power-on state and target clock 100. -/
theorem C3_updateFrame_idempotent_witness :
    updateFrame (updateFrame tiaS0 100) 100 = updateFrame tiaS0 100 :=
  C3_updateFrame_idempotent tiaS0 100 ⟨by decide, by decide⟩


/-- Modelled from the spec: `TIATables::PokeDelay` entries for VSYNC/VBLANK
(`TIATables.cxx` is not under `src/`; the spec says delays are "mostly
fixed").  The exact delay only shifts the render target of the write's
catch-up `updateFrame` call and is irrelevant to the frame-end logic. -/
def pokeDelayVSYNC : Int := 0

/-- Modelled from the spec: `TIATables::PokeDelay[VBLANK]`. -/
def pokeDelayVBLANK : Int := 0

/-- `TIA::scanlines` (TIA.hxx:263-264): the scanline the given color clock
falls in, relative to the frame start. -/
def scanlines (clock : Int) (s : TiaState) : Int :=
  (clock - s.clockWhenFrameStarted).tdiv SCANLINE_CLOCKS

/-- The frame-overrun safety valve at the top of `TIA::poke`
(TIA.cxx:1154-1159): halt the CPU and end the frame if no VSYNC arrived
within the maximum scanline count. -/
def pokeFrameCheck (clock : Int) (s : TiaState) : TiaState :=
  if (clock - s.clockWhenFrameStarted).tdiv SCANLINE_CLOCKS ≥
      s.maximumNumberOfScanlines then
    { s with cpuHalted := true, partialFrameFlag := false }
  else s

/-- `TIA::poke` for the VSYNC register (TIA.cxx:1138-1184): render up to the
write's effective clock, apply the frame-overrun check, then the VSYNC
set/clear logic. -/
def pokeVSYNC (clock : Int) (value : Nat) (s : TiaState) : TiaState :=
  let s := updateFrame s (clock + pokeDelayVSYNC)
  let s := pokeFrameCheck clock s
  let s := { s with vsync := value }
  if s.vsync &&& 0x02 ≠ 0 then
    { s with vsyncFinishClock := clock + SCANLINE_CLOCKS }
  else if clock ≥ s.vsyncFinishClock then
    { s with vsyncFinishClock := 0x7FFFFFFF, cpuHalted := true,
             partialFrameFlag := false }
  else s

/-- `TIA::poke` for the VBLANK register (TIA.cxx:1186-1211): dump-path
bookkeeping, input-latch reset when the latch-enable bit was clear, first
unblanked scanline tracking, then the register assignment. -/
def pokeVBLANK (clock : Int) (value : Nat) (s : TiaState) : TiaState :=
  let s := updateFrame s (clock + pokeDelayVBLANK)
  let s := pokeFrameCheck clock s
  let s :=
    if s.vblank &&& 0x80 = 0 ∧ value &&& 0x80 ≠ 0 then
      { s with dumpEnabled := true }
    else if s.vblank &&& 0x80 ≠ 0 ∧ value &&& 0x80 = 0 then
      { s with dumpEnabled := false, dumpDisabledCycle := clock.tdiv 3 }
    else s
  let s := if s.vblank &&& 0x40 = 0 then { s with inpt4 := 0x80, inpt5 := 0x80 }
           else s
  let s := if s.startScanline = 0 ∧ value &&& 0x10 = 0 then
             { s with startScanline := scanlines clock s }
           else s
  { s with vblank := value }

lemma pokeFrameCheck_vsyncFinishClock (c : Int) (s : TiaState) :
    (pokeFrameCheck c s).vsyncFinishClock = s.vsyncFinishClock := by
  unfold pokeFrameCheck
  split <;> rfl

lemma pokeFrameCheck_frameStart (c : Int) (s : TiaState) :
    (pokeFrameCheck c s).clockWhenFrameStarted = s.clockWhenFrameStarted := by
  unfold pokeFrameCheck
  split <;> rfl

lemma pokeFrameCheck_halted (c : Int) (s : TiaState)
    (h : (c - s.clockWhenFrameStarted).tdiv SCANLINE_CLOCKS ≥
      s.maximumNumberOfScanlines) :
    (pokeFrameCheck c s).cpuHalted = true ∧
    (pokeFrameCheck c s).partialFrameFlag = false := by
  unfold pokeFrameCheck
  rw [if_pos h]
  exact ⟨rfl, rfl⟩

lemma pokeVSYNC_set (c0 : Int) (v : Nat) (s : TiaState) (hv : v &&& 0x02 ≠ 0) :
    (pokeVSYNC c0 v s).vsyncFinishClock = c0 + SCANLINE_CLOCKS := by
  simp only [pokeVSYNC]
  split
  · rfl
  · next h => exact absurd hv h

lemma pokeVSYNC_frameStart (c : Int) (v : Nat) (s : TiaState) :
    (pokeVSYNC c v s).clockWhenFrameStarted = s.clockWhenFrameStarted := by
  have hq : (updateFrame s (c + pokeDelayVSYNC)).clockWhenFrameStarted =
      s.clockWhenFrameStarted :=
    congrArg QuietFields.clockWhenFrameStarted (updateFrame_quiet s _)
  have hp : (pokeFrameCheck c (updateFrame s (c + pokeDelayVSYNC))).clockWhenFrameStarted =
      s.clockWhenFrameStarted :=
    (pokeFrameCheck_frameStart c _).trans hq
  simp only [pokeVSYNC]
  repeat' split
  all_goals exact hp

lemma pokeVSYNC_clear (c1 : Int) (s1 : TiaState)
    (hfin : c1 ≥ s1.vsyncFinishClock) :
    (pokeVSYNC c1 0 s1).cpuHalted = true ∧
    (pokeVSYNC c1 0 s1).partialFrameFlag = false := by
  have hq : (updateFrame s1 (c1 + pokeDelayVSYNC)).vsyncFinishClock =
      s1.vsyncFinishClock :=
    congrArg QuietFields.vsyncFinishClock (updateFrame_quiet s1 _)
  have hfin2 : c1 ≥
      (pokeFrameCheck c1 (updateFrame s1 (c1 + pokeDelayVSYNC))).vsyncFinishClock := by
    rw [pokeFrameCheck_vsyncFinishClock, hq]
    exact hfin
  simp only [pokeVSYNC]
  split
  · next h => exact absurd h (by decide)
  · exact ⟨rfl, rfl⟩

lemma pokeVSYNC_force_end (clock : Int) (v : Nat) (s : TiaState)
    (h : scanlines clock s ≥ s.maximumNumberOfScanlines) :
    (pokeVSYNC clock v s).cpuHalted = true ∧
    (pokeVSYNC clock v s).partialFrameFlag = false := by
  have hq1 : (updateFrame s (clock + pokeDelayVSYNC)).clockWhenFrameStarted =
      s.clockWhenFrameStarted :=
    congrArg QuietFields.clockWhenFrameStarted (updateFrame_quiet s _)
  have hq2 : (updateFrame s (clock + pokeDelayVSYNC)).maximumNumberOfScanlines =
      s.maximumNumberOfScanlines :=
    congrArg QuietFields.maximumNumberOfScanlines (updateFrame_quiet s _)
  have hfc := pokeFrameCheck_halted clock (updateFrame s (clock + pokeDelayVSYNC))
    (by rw [hq1, hq2]; exact h)
  simp only [pokeVSYNC]
  split
  · exact hfc
  · split
    · exact ⟨rfl, rfl⟩
    · exact hfc

/-- **C6, counterexample.** VSYNC set at color clock 2280 (scanline 10 of a
frame started at clock 0) and cleared exactly 3 scanlines later ends the
frame — but `scanlines()` is then 13, not 3 as the claim states. -/
theorem C6_counterexample :
    (pokeVSYNC 2964 0 (pokeVSYNC 2280 2 tiaS0)).cpuHalted = true ∧
    (pokeVSYNC 2964 0 (pokeVSYNC 2280 2 tiaS0)).partialFrameFlag = false ∧
    scanlines 2964 (pokeVSYNC 2964 0 (pokeVSYNC 2280 2 tiaS0)) ≠ 3 := by
  decide

/-- **C6, amended.** A VSYNC set poke records a finish deadline one scanline
ahead; a poke clearing VSYNC exactly 3 scanlines after the set poke ends
the frame (halts the CPU and clears the partial-frame flag), with
`scanlines()` equal to the set poke's scanline plus 3 — hence 3 exactly
when VSYNC was set during scanline 0.  And when VSYNC never arrives, any
poke at or past the configured maximum scanline count force-ends the frame
and halts the CPU. -/
theorem C6_vsync_frame_end (c0 c2 : Int) (v v2 : Nat) (s s1 s2 : TiaState)
    (hv : v &&& 0x02 ≠ 0)
    (hfin : s1.vsyncFinishClock = c0 + SCANLINE_CLOCKS)
    (hpos : 0 ≤ c0 - s1.clockWhenFrameStarted)
    (hmax : scanlines c2 s2 ≥ s2.maximumNumberOfScanlines) :
    (pokeVSYNC c0 v s).vsyncFinishClock = c0 + SCANLINE_CLOCKS ∧
    ((pokeVSYNC (c0 + 3 * SCANLINE_CLOCKS) 0 s1).cpuHalted = true ∧
     (pokeVSYNC (c0 + 3 * SCANLINE_CLOCKS) 0 s1).partialFrameFlag = false ∧
     scanlines (c0 + 3 * SCANLINE_CLOCKS) (pokeVSYNC (c0 + 3 * SCANLINE_CLOCKS) 0 s1)
       = scanlines c0 s1 + 3) ∧
    ((pokeVSYNC c2 v2 s2).cpuHalted = true ∧
     (pokeVSYNC c2 v2 s2).partialFrameFlag = false) := by
  refine ⟨pokeVSYNC_set c0 v s hv, ⟨?_, ?_, ?_⟩, pokeVSYNC_force_end c2 v2 s2 hmax⟩
  · exact (pokeVSYNC_clear _ s1 (by rw [hfin]; unfold SCANLINE_CLOCKS; omega)).1
  · exact (pokeVSYNC_clear _ s1 (by rw [hfin]; unfold SCANLINE_CLOCKS; omega)).2
  · unfold scanlines
    rw [pokeVSYNC_frameStart]
    unfold SCANLINE_CLOCKS
    rw [Int.tdiv_eq_ediv (by omega) (by omega), Int.tdiv_eq_ediv (by omega) (by omega)]
    omega

/-- Witness instantiating `C6_vsync_frame_end` at concrete states: VSYNC set
at clock 0 of a fresh frame and cleared at clock 684, plus a poke at
scanline 262 of a frame that never saw VSYNC. -/
theorem C6_vsync_frame_end_witness :
    (pokeVSYNC 0 2 tiaS0).vsyncFinishClock = 0 + SCANLINE_CLOCKS ∧
    ((pokeVSYNC (0 + 3 * SCANLINE_CLOCKS) 0
        { tiaS0 with vsyncFinishClock := 228 }).cpuHalted = true ∧
     (pokeVSYNC (0 + 3 * SCANLINE_CLOCKS) 0
        { tiaS0 with vsyncFinishClock := 228 }).partialFrameFlag = false ∧
     scanlines (0 + 3 * SCANLINE_CLOCKS)
        (pokeVSYNC (0 + 3 * SCANLINE_CLOCKS) 0
          { tiaS0 with vsyncFinishClock := 228 })
       = scanlines 0 { tiaS0 with vsyncFinishClock := 228 } + 3) ∧
    ((pokeVSYNC 59736 5 tiaS0).cpuHalted = true ∧
     (pokeVSYNC 59736 5 tiaS0).partialFrameFlag = false) :=
  C6_vsync_frame_end 0 59736 2 5 tiaS0 { tiaS0 with vsyncFinishClock := 228 }
    tiaS0 (by decide) (by decide) (by decide) (by decide)


/-- `TIA::peek` for the INPT4 register (TIA.cxx:1095-1102): render up to the
read's color clock, update the latch (`myINPT4 &= button` while VBLANK's
bit 6 is set, else `myINPT4 = button`), and return the data-bus floor with
the latch ORed into bit 7.  `button` is the controller read already encoded
as 0x80 (pressed-high) or 0x00. -/
def peekINPT4 (clock : Int) (dataBus button : Nat) (s : TiaState) :
    Nat × TiaState :=
  let s := updateFrame s clock
  let latched := if s.vblank &&& 0x40 ≠ 0 then s.inpt4 &&& button else button
  (((0x3F &&& dataBus) &&& 0x7F) ||| latched, { s with inpt4 := latched })

/-- `TIA::peek` for the INPT5 register (TIA.cxx:1104-1111), identical to
INPT4 with the other controller. -/
def peekINPT5 (clock : Int) (dataBus button : Nat) (s : TiaState) :
    Nat × TiaState :=
  let s := updateFrame s clock
  let latched := if s.vblank &&& 0x40 ≠ 0 then s.inpt5 &&& button else button
  (((0x3F &&& dataBus) &&& 0x7F) ||| latched, { s with inpt5 := latched })

/-- The state after a sequence of INPT4 reads, each given as
(color clock, data-bus value, button byte). -/
def peekINPT4Seq : TiaState → List (Int × Nat × Nat) → TiaState
  | s, [] => s
  | s, r :: rs => peekINPT4Seq (peekINPT4 r.1 r.2.1 r.2.2 s).2 rs

lemma updateFrame_vblank (s : TiaState) (c : Int) :
    (updateFrame s c).vblank = s.vblank :=
  congrArg QuietFields.vblank (updateFrame_quiet s c)

lemma updateFrame_inpt4 (s : TiaState) (c : Int) :
    (updateFrame s c).inpt4 = s.inpt4 :=
  congrArg QuietFields.inpt4 (updateFrame_quiet s c)

lemma updateFrame_inpt5 (s : TiaState) (c : Int) :
    (updateFrame s c).inpt5 = s.inpt5 :=
  congrArg QuietFields.inpt5 (updateFrame_quiet s c)

lemma pokeFrameCheck_vblank (c : Int) (s : TiaState) :
    (pokeFrameCheck c s).vblank = s.vblank := by
  unfold pokeFrameCheck
  split <;> rfl

lemma pokeFrameCheck_inpt4 (c : Int) (s : TiaState) :
    (pokeFrameCheck c s).inpt4 = s.inpt4 := by
  unfold pokeFrameCheck
  split <;> rfl

lemma pokeFrameCheck_inpt5 (c : Int) (s : TiaState) :
    (pokeFrameCheck c s).inpt5 = s.inpt5 := by
  unfold pokeFrameCheck
  split <;> rfl

lemma peekINPT4_latched (c : Int) (d b : Nat) (s : TiaState)
    (h : s.vblank &&& 0x40 ≠ 0) :
    (peekINPT4 c d b s).2.inpt4 = s.inpt4 &&& b ∧
    (peekINPT4 c d b s).2.vblank = s.vblank := by
  simp only [peekINPT4, updateFrame_vblank, updateFrame_inpt4]
  split
  · exact ⟨rfl, True.intro⟩
  · next hn => exact absurd h hn

lemma peekINPT5_latched (c : Int) (d b : Nat) (s : TiaState)
    (h : s.vblank &&& 0x40 ≠ 0) :
    (peekINPT5 c d b s).2.inpt5 = s.inpt5 &&& b := by
  simp only [peekINPT5, updateFrame_vblank, updateFrame_inpt5]
  split
  · rfl
  · next hn => exact absurd h hn

lemma peekINPT4_value (c : Int) (d b : Nat) (s : TiaState) :
    (peekINPT4 c d b s).1 =
      ((0x3F &&& d) &&& 0x7F) ||| (peekINPT4 c d b s).2.inpt4 := rfl

lemma peekINPT4Seq_le (reads : List (Int × Nat × Nat)) (s : TiaState)
    (h : s.vblank &&& 0x40 ≠ 0) :
    (peekINPT4Seq s reads).inpt4 ≤ s.inpt4 ∧
    (peekINPT4Seq s reads).vblank = s.vblank := by
  induction reads generalizing s with
  | nil => exact ⟨le_refl _, rfl⟩
  | cons r rs ih =>
    have hstep := peekINPT4_latched r.1 r.2.1 r.2.2 s h
    have h2 : ((peekINPT4 r.1 r.2.1 r.2.2 s).2).vblank &&& 0x40 ≠ 0 := by
      rw [hstep.2]; exact h
    have ihx := ih ((peekINPT4 r.1 r.2.1 r.2.2 s).2) h2
    refine ⟨le_trans ihx.1 ?_, ihx.2.trans hstep.2⟩
    rw [hstep.1]
    exact Nat.and_le_left

lemma peekINPT4Seq_testBit (reads : List (Int × Nat × Nat)) (s : TiaState)
    (h : s.vblank &&& 0x40 ≠ 0) (h7 : s.inpt4.testBit 7 = false) :
    ((peekINPT4Seq s reads).inpt4).testBit 7 = false ∧
    (peekINPT4Seq s reads).vblank = s.vblank := by
  induction reads generalizing s with
  | nil => exact ⟨h7, rfl⟩
  | cons r rs ih =>
    have hstep := peekINPT4_latched r.1 r.2.1 r.2.2 s h
    have h2 : ((peekINPT4 r.1 r.2.1 r.2.2 s).2).vblank &&& 0x40 ≠ 0 := by
      rw [hstep.2]; exact h
    have h72 : ((peekINPT4 r.1 r.2.1 r.2.2 s).2).inpt4.testBit 7 = false := by
      rw [hstep.1, Nat.testBit_and, h7, Bool.false_and]
    have ihx := ih ((peekINPT4 r.1 r.2.1 r.2.2 s).2) h2 h72
    exact ⟨ihx.1, ihx.2.trans hstep.2⟩

lemma pokeVBLANK_latch_kept (c : Int) (v : Nat) (s : TiaState)
    (h : s.vblank &&& 0x40 ≠ 0) :
    (pokeVBLANK c v s).inpt4 = s.inpt4 ∧
    (pokeVBLANK c v s).inpt5 = s.inpt5 := by
  have hv : (pokeFrameCheck c (updateFrame s (c + pokeDelayVBLANK))).vblank
      = s.vblank := (pokeFrameCheck_vblank c _).trans (updateFrame_vblank s _)
  have hi4 : (pokeFrameCheck c (updateFrame s (c + pokeDelayVBLANK))).inpt4
      = s.inpt4 := (pokeFrameCheck_inpt4 c _).trans (updateFrame_inpt4 s _)
  have hi5 : (pokeFrameCheck c (updateFrame s (c + pokeDelayVBLANK))).inpt5
      = s.inpt5 := (pokeFrameCheck_inpt5 c _).trans (updateFrame_inpt5 s _)
  simp only [pokeVBLANK, hv, hi4, hi5]
  repeat' split
  all_goals simp_all

lemma pokeVBLANK_latch_reset (c : Int) (v : Nat) (s : TiaState)
    (h : s.vblank &&& 0x40 = 0) :
    (pokeVBLANK c v s).inpt4 = 0x80 ∧
    (pokeVBLANK c v s).inpt5 = 0x80 := by
  have hv : (pokeFrameCheck c (updateFrame s (c + pokeDelayVBLANK))).vblank
      = s.vblank := (pokeFrameCheck_vblank c _).trans (updateFrame_vblank s _)
  simp only [pokeVBLANK, hv]
  repeat' split
  all_goals simp_all

/-- The concrete state for the C8 counterexample: latch enable on, INPT4
latched low (button observed pressed while latching). -/
def cexS8 : TiaState := { tiaS0 with vblank := 0x40, inpt4 := 0 }

/-- **C8, counterexample.** With VBLANK's latch-enable bit set and INPT4
latched to 0, a VBLANK write of 0 clears the latch-enable bit — but the
latches are not reset to 0x80 by that write: INPT4 stays 0.  The reset
happens only on a VBLANK write issued while bit 6 is already clear. -/
theorem C8_counterexample :
    (pokeVBLANK 0 0 cexS8).vblank &&& 0x40 = 0 ∧
    (pokeVBLANK 0 0 cexS8).inpt4 = 0 := by
  decide

/-- **C8, amended.** While VBLANK's latch-enable bit (bit 6) is set, the
latched INPT4 value is monotonically non-increasing across any sequence of
peeks, and once the latched button bit reads cleared no later peek observes
it set (neither in the returned byte's bit 7 nor in the latch); a single
INPT5 peek likewise can only clear latch bits.  A VBLANK write while bit 6
is set never resets the latches — even a write that clears bit 6; the reset
to 0x80 happens on a VBLANK write issued while bit 6 is already clear. -/
theorem C8_input_latch (s s2 : TiaState) (reads : List (Int × Nat × Nat))
    (c clk : Int) (d b v : Nat)
    (hlat : s.vblank &&& 0x40 ≠ 0) (hclr : s2.vblank &&& 0x40 = 0) :
    ((peekINPT4Seq s reads).inpt4 ≤ s.inpt4 ∧
     (peekINPT4Seq s reads).vblank = s.vblank) ∧
    (s.inpt4.testBit 7 = false →
      ((peekINPT4 c d b (peekINPT4Seq s reads)).1).testBit 7 = false ∧
      ((peekINPT4 c d b (peekINPT4Seq s reads)).2).inpt4.testBit 7 = false) ∧
    (peekINPT5 c d b s).2.inpt5 ≤ s.inpt5 ∧
    ((pokeVBLANK clk v s).inpt4 = s.inpt4 ∧
     (pokeVBLANK clk v s).inpt5 = s.inpt5) ∧
    ((pokeVBLANK clk v s2).inpt4 = 0x80 ∧
     (pokeVBLANK clk v s2).inpt5 = 0x80) := by
  refine ⟨peekINPT4Seq_le reads s hlat, ?_, ?_,
    pokeVBLANK_latch_kept clk v s hlat, pokeVBLANK_latch_reset clk v s2 hclr⟩
  · intro h7
    have hseq := peekINPT4Seq_testBit reads s hlat h7
    have hlat2 : (peekINPT4Seq s reads).vblank &&& 0x40 ≠ 0 := by
      rw [hseq.2]; exact hlat
    have hstep := peekINPT4_latched c d b (peekINPT4Seq s reads) hlat2
    have hbit : ((peekINPT4 c d b (peekINPT4Seq s reads)).2).inpt4.testBit 7
        = false := by
      rw [hstep.1, Nat.testBit_and, hseq.1, Bool.false_and]
    refine ⟨?_, hbit⟩
    have h3f : (((0x3F : Nat) &&& d) &&& 0x7F).testBit 7 = false := by
      rw [Nat.testBit_and, Nat.testBit_and]
      rw [show ((0x3F : Nat)).testBit 7 = false from by decide]
      rw [Bool.false_and, Bool.false_and]
    rw [peekINPT4_value, Nat.testBit_or, hbit, Bool.or_false, h3f]
  · rw [(peekINPT5_latched c d b s hlat)]
    exact Nat.and_le_left

/-- Witness instantiating `C8_input_latch`: a freshly latched state with
INPT4 low, one further read, and a reset state with bit 6 clear. -/
theorem C8_input_latch_witness :
    (cexS8.vblank &&& 0x40 ≠ 0 ∧ tiaS0.vblank &&& 0x40 = 0) ∧
    (((peekINPT4Seq cexS8 [(0, 0, 0x80)]).inpt4 ≤ cexS8.inpt4 ∧
      (peekINPT4Seq cexS8 [(0, 0, 0x80)]).vblank = cexS8.vblank) ∧
     (cexS8.inpt4.testBit 7 = false →
       ((peekINPT4 3 0 0x80 (peekINPT4Seq cexS8 [(0, 0, 0x80)])).1).testBit 7
         = false ∧
       ((peekINPT4 3 0 0x80 (peekINPT4Seq cexS8 [(0, 0, 0x80)])).2).inpt4.testBit 7
         = false) ∧
     (peekINPT5 3 0 0x80 cexS8).2.inpt5 ≤ cexS8.inpt5 ∧
     ((pokeVBLANK 6 0x40 cexS8).inpt4 = cexS8.inpt4 ∧
      (pokeVBLANK 6 0x40 cexS8).inpt5 = cexS8.inpt5) ∧
     ((pokeVBLANK 6 0x40 tiaS0).inpt4 = 0x80 ∧
      (pokeVBLANK 6 0x40 tiaS0).inpt5 = 0x80)) :=
  ⟨⟨by decide, by decide⟩,
    C8_input_latch cexS8 tiaS0 [(0, 0, 0x80)] 3 6 0 0x80 0x40
      (by decide) (by decide)⟩


/-- `TIA::reset` (TIA.cxx:102-145) followed by the `frameReset` call at its
tail (TIA.cxx:148-208), restricted to the embedded fields.  `cycles` is
`mySystem->cycles()` at the reset.  The NTSC branch of `frameReset` is
taken (framerate above 55) and `ystart + height` is at most 262, giving a
display stop offset of 262 scanlines; fields the source leaves untouched
(each object's `myStart`, the missiles' NUSIZ and RESMP latches, the first
unblanked scanline) keep their old values. -/
def tiaReset (cycles : Int) (s : TiaState) : TiaState :=
  { s with
    disabledObjects := 0xFF
    allowHMOVEBlanks := true
    vsync := 0
    vblank := 0
    colors := fun _ => 0
    collision := 0
    collisionEnabledMask := 0xFFFFFFFF
    currentHMOVEPos := 0x7FFFFFFF
    previousHMOVEPos := 0x7FFFFFFF
    hmoveBlankEnabled := false
    dumpEnabled := false
    dumpDisabledCycle := 0
    inpt4 := 0x80
    inpt5 := 0x80
    frameCounter := 0
    palFrameCounter := 0
    scanlineCountForLastFrame := 0
    player0 := { core := { s.player0.core with
                   hm := 0, vdel := false, pos := 0, motionClock := 0,
                   hmmmr := false },
                 grp := 0, dgrp := 0, nusiz := 0, refp := false,
                 suppress := 0, currentGRP := 0 }
    player1 := { core := { s.player1.core with
                   hm := 0, vdel := false, pos := 0, motionClock := 0,
                   hmmmr := false },
                 grp := 0, dgrp := 0, nusiz := 0, refp := false,
                 suppress := 0, currentGRP := 0 }
    missile0 := { s.missile0 with
                  core := { s.missile0.core with
                    hm := 0, vdel := false, pos := 0, motionClock := 0,
                    hmmmr := false },
                  enable := false }
    missile1 := { s.missile1 with
                  core := { s.missile1.core with
                    hm := 0, vdel := false, pos := 0, motionClock := 0,
                    hmmmr := false },
                  enable := false }
    ball := { core := { s.ball.core with
                hm := 0, vdel := false, pos := 0, motionClock := 0,
                hmmmr := false },
              enable := false, ctrlpf := 0, denable := false,
              currentEnabled := false }
    playfield := { ctrlpf := 0, pf := 0, priorityAndScore := 0 }
    fb := fun _ => 0
    framePointer := 0
    framePointerClocks := 0
    maximumNumberOfScanlines := 290
    clockWhenFrameStarted := cycles * 3
    clockStartDisplay := cycles * 3
    clockStopDisplay := cycles * 3 + SCANLINE_CLOCKS * 262
    clockAtLastUpdate := cycles * 3
    clocksToEndOfScanLine := SCANLINE_CLOCKS
    vsyncFinishClock := 0x7FFFFFFF }

/-- `TIA::isPAL` (TIA.hxx:231-232):
`float(myPALFrameCounter) / myFrameCounter >= (25.0/60.0)`.  The quotient
is modelled over `ℚ`, where division by zero is total and yields 0, making
the unguarded-divisor case explicit in the model. -/
def isPAL (s : TiaState) : Bool :=
  decide (((s.palFrameCounter : ℚ) / (s.frameCounter : ℚ)) ≥ 25 / 60)

/-- **C10.** After `reset()` the frame counter is 0, so `isPAL()` computes
`myPALFrameCounter / myFrameCounter` with a zero divisor: the quotient it
evaluates is literally a division by zero, and in the total model (where
x / 0 = 0) the call returns false.  In the C++ single-precision semantics
the same expression is 0.0f/0 = NaN, and `NaN >= 25.0/60.0` is likewise
false — but only the precondition "at least one frame completed" makes the
result meaningful. -/
theorem C10_isPAL_division_by_zero (cycles : Int) (s : TiaState) :
    (tiaReset cycles s).frameCounter = 0 ∧
    ((tiaReset cycles s).palFrameCounter : ℚ) /
        ((tiaReset cycles s).frameCounter : ℚ) =
      ((tiaReset cycles s).palFrameCounter : ℚ) / 0 ∧
    isPAL (tiaReset cycles s) = false := by
  refine ⟨rfl, ?_, ?_⟩
  · rw [show (tiaReset cycles s).frameCounter = 0 from rfl]
    norm_num
  · simp only [isPAL, show (tiaReset cycles s).frameCounter = 0 from rfl,
      show (tiaReset cycles s).palFrameCounter = 0 from rfl]
    norm_num


/-- Modelled from the spec: one item of the `Serializer` stream (the
`Serializer` class is not under `src/`).  The spec describes the state file
as a sequence of typed values (strings, integers of various widths,
booleans) whose reads throw when the stream is exhausted or malformed; the
widths are collapsed into one integer constructor, since `TIA::load` casts
every numeric read to its field's width anyway. -/
inductive SVal where
  | str : String → SVal
  | num : Int → SVal
  | bool : Bool → SVal
deriving DecidableEq

/-- `TIA::name` (TIA.hxx:154). -/
def tiaName : String := "TIA"

/-- Lift a numeric field assignment to a stream step: succeeds on a numeric
item, fails (throws) on anything else. -/
def setNum (f : TiaState → Int → TiaState) : TiaState → SVal → Option TiaState :=
  fun s v =>
    match v with
    | SVal.num n => some (f s n)
    | _ => none

/-- Lift a boolean field assignment to a stream step. -/
def setBool (f : TiaState → Bool → TiaState) : TiaState → SVal → Option TiaState :=
  fun s v =>
    match v with
    | SVal.bool b => some (f s b)
    | _ => none

/-- The field assignments of `TIA::load` (TIA.cxx:323-361) in stream order:
27 top-level scalars, the playfield (3), the players (12 each), the
missiles (9 each), the ball (10), and one placeholder item for the sound
device's state (`mySound.load`, outside the TIA; modelled from the spec as
a single consumed item). -/
def tiaLoadSetters : List (TiaState → SVal → Option TiaState) :=
  [ setNum (fun s n => { s with clockWhenFrameStarted := n }),
    setNum (fun s n => { s with clockStartDisplay := n }),
    setNum (fun s n => { s with clockStopDisplay := n }),
    setNum (fun s n => { s with clockAtLastUpdate := n }),
    setNum (fun s n => { s with clocksToEndOfScanLine := n }),
    setNum (fun s n => { s with scanlineCountForLastFrame := n.toNat }),
    setNum (fun s n => { s with vsyncFinishClock := n }),
    setNum (fun s n => { s with disabledObjects := n.toNat }),
    setNum (fun s n => { s with vsync := n.toNat }),
    setNum (fun s n => { s with vblank := n.toNat }),
    setNum (fun s n => { s with colors := fnUpdate s.colors 0 n.toNat }),
    setNum (fun s n => { s with colors := fnUpdate s.colors 1 n.toNat }),
    setNum (fun s n => { s with colors := fnUpdate s.colors 2 n.toNat }),
    setNum (fun s n => { s with colors := fnUpdate s.colors 3 n.toNat }),
    setNum (fun s n => { s with colors := fnUpdate s.colors 4 n.toNat }),
    setNum (fun s n => { s with colors := fnUpdate s.colors 5 n.toNat }),
    setNum (fun s n => { s with colors := fnUpdate s.colors 6 n.toNat }),
    setNum (fun s n => { s with colors := fnUpdate s.colors 7 n.toNat }),
    setNum (fun s n => { s with collision := n.toNat }),
    setNum (fun s n => { s with collisionEnabledMask := n.toNat }),
    setBool (fun s b => { s with dumpEnabled := b }),
    setNum (fun s n => { s with dumpDisabledCycle := n }),
    setNum (fun s n => { s with currentHMOVEPos := n }),
    setNum (fun s n => { s with previousHMOVEPos := n }),
    setBool (fun s b => { s with hmoveBlankEnabled := b }),
    setNum (fun s n => { s with frameCounter := n.toNat }),
    setNum (fun s n => { s with palFrameCounter := n.toNat }),
    setNum (fun s n => { s with playfield := { s.playfield with ctrlpf := n.toNat } }),
    setNum (fun s n => { s with playfield := { s.playfield with pf := n.toNat } }),
    setNum (fun s n => { s with playfield := { s.playfield with priorityAndScore := n.toNat } }),
    setNum (fun s n => { s with player0 := { s.player0 with core := { s.player0.core with hm := n.toNat } } }),
    setBool (fun s b => { s with player0 := { s.player0 with core := { s.player0.core with vdel := b } } }),
    setNum (fun s n => { s with player0 := { s.player0 with core := { s.player0.core with pos := n } } }),
    setNum (fun s n => { s with player0 := { s.player0 with core := { s.player0.core with motionClock := n } } }),
    setNum (fun s n => { s with player0 := { s.player0 with core := { s.player0.core with start := n } } }),
    setBool (fun s b => { s with player0 := { s.player0 with core := { s.player0.core with hmmmr := b } } }),
    setNum (fun s n => { s with player0 := { s.player0 with grp := n.toNat } }),
    setNum (fun s n => { s with player0 := { s.player0 with dgrp := n.toNat } }),
    setNum (fun s n => { s with player0 := { s.player0 with nusiz := n.toNat } }),
    setBool (fun s b => { s with player0 := { s.player0 with refp := b } }),
    setNum (fun s n => { s with player0 := { s.player0 with suppress := n.toNat } }),
    setNum (fun s n => { s with player0 := { s.player0 with currentGRP := n.toNat } }),
    setNum (fun s n => { s with player1 := { s.player1 with core := { s.player1.core with hm := n.toNat } } }),
    setBool (fun s b => { s with player1 := { s.player1 with core := { s.player1.core with vdel := b } } }),
    setNum (fun s n => { s with player1 := { s.player1 with core := { s.player1.core with pos := n } } }),
    setNum (fun s n => { s with player1 := { s.player1 with core := { s.player1.core with motionClock := n } } }),
    setNum (fun s n => { s with player1 := { s.player1 with core := { s.player1.core with start := n } } }),
    setBool (fun s b => { s with player1 := { s.player1 with core := { s.player1.core with hmmmr := b } } }),
    setNum (fun s n => { s with player1 := { s.player1 with grp := n.toNat } }),
    setNum (fun s n => { s with player1 := { s.player1 with dgrp := n.toNat } }),
    setNum (fun s n => { s with player1 := { s.player1 with nusiz := n.toNat } }),
    setBool (fun s b => { s with player1 := { s.player1 with refp := b } }),
    setNum (fun s n => { s with player1 := { s.player1 with suppress := n.toNat } }),
    setNum (fun s n => { s with player1 := { s.player1 with currentGRP := n.toNat } }),
    setNum (fun s n => { s with missile0 := { s.missile0 with core := { s.missile0.core with hm := n.toNat } } }),
    setBool (fun s b => { s with missile0 := { s.missile0 with core := { s.missile0.core with vdel := b } } }),
    setNum (fun s n => { s with missile0 := { s.missile0 with core := { s.missile0.core with pos := n } } }),
    setNum (fun s n => { s with missile0 := { s.missile0 with core := { s.missile0.core with motionClock := n } } }),
    setNum (fun s n => { s with missile0 := { s.missile0 with core := { s.missile0.core with start := n } } }),
    setBool (fun s b => { s with missile0 := { s.missile0 with core := { s.missile0.core with hmmmr := b } } }),
    setBool (fun s b => { s with missile0 := { s.missile0 with enable := b } }),
    setNum (fun s n => { s with missile0 := { s.missile0 with nusiz := n.toNat } }),
    setBool (fun s b => { s with missile0 := { s.missile0 with resmp := b } }),
    setNum (fun s n => { s with missile1 := { s.missile1 with core := { s.missile1.core with hm := n.toNat } } }),
    setBool (fun s b => { s with missile1 := { s.missile1 with core := { s.missile1.core with vdel := b } } }),
    setNum (fun s n => { s with missile1 := { s.missile1 with core := { s.missile1.core with pos := n } } }),
    setNum (fun s n => { s with missile1 := { s.missile1 with core := { s.missile1.core with motionClock := n } } }),
    setNum (fun s n => { s with missile1 := { s.missile1 with core := { s.missile1.core with start := n } } }),
    setBool (fun s b => { s with missile1 := { s.missile1 with core := { s.missile1.core with hmmmr := b } } }),
    setBool (fun s b => { s with missile1 := { s.missile1 with enable := b } }),
    setNum (fun s n => { s with missile1 := { s.missile1 with nusiz := n.toNat } }),
    setBool (fun s b => { s with missile1 := { s.missile1 with resmp := b } }),
    setNum (fun s n => { s with ball := { s.ball with core := { s.ball.core with hm := n.toNat } } }),
    setBool (fun s b => { s with ball := { s.ball with core := { s.ball.core with vdel := b } } }),
    setNum (fun s n => { s with ball := { s.ball with core := { s.ball.core with pos := n } } }),
    setNum (fun s n => { s with ball := { s.ball with core := { s.ball.core with motionClock := n } } }),
    setNum (fun s n => { s with ball := { s.ball with core := { s.ball.core with start := n } } }),
    setBool (fun s b => { s with ball := { s.ball with core := { s.ball.core with hmmmr := b } } }),
    setBool (fun s b => { s with ball := { s.ball with enable := b } }),
    setNum (fun s n => { s with ball := { s.ball with ctrlpf := n.toNat } }),
    setBool (fun s b => { s with ball := { s.ball with denable := b } }),
    setBool (fun s b => { s with ball := { s.ball with currentEnabled := b } }),
    setNum (fun s _ => s) ]

/-- Run the load steps over the stream: stops with `false` at the first
read that throws (stream exhausted or wrong item kind), keeping every
assignment made so far, exactly as the C++ `catch` does. -/
def loadSeq : List (TiaState → SVal → Option TiaState) → List SVal →
    TiaState → Bool × TiaState
  | [], _, s => (true, s)
  | _ :: _, [], s => (false, s)
  | f :: fs, v :: vs, s =>
    match f s v with
    | none => (false, s)
    | some s2 => loadSeq fs vs s2

/-- `TIA::load` (TIA.cxx:315-375): check the device tag, run the reads
inside the try block, and on success re-enable the six object bits
(`enableBits(true)`, i.e. `myDisabledObjects |= 0x3F`) and HMOVE blanks.
`toggleFixedColors(0)` only rebuilds debug-colour state that is outside
the embedded fields.  Any throw is caught and reported as `false`. -/
def tiaLoad (stream : List SVal) (s : TiaState) : Bool × TiaState :=
  match stream with
  | SVal.str tag :: rest =>
    if tag = tiaName then
      let r := loadSeq tiaLoadSetters rest s
      if r.1 then
        (true, { r.2 with disabledObjects := r.2.disabledObjects ||| 0x3F,
                          allowHMOVEBlanks := true })
      else (false, r.2)
    else (false, s)
  | _ => (false, s)

/-- The items `TIA::save` (TIA.cxx:258-312) writes after the device tag, in
stream order (the sound device's state is one placeholder item, as in
`tiaLoadSetters`). -/
def tiaSaveBody (s : TiaState) : List SVal :=
  [ SVal.num s.clockWhenFrameStarted,
    SVal.num s.clockStartDisplay,
    SVal.num s.clockStopDisplay,
    SVal.num s.clockAtLastUpdate,
    SVal.num s.clocksToEndOfScanLine,
    SVal.num (s.scanlineCountForLastFrame : Int),
    SVal.num s.vsyncFinishClock,
    SVal.num (s.disabledObjects : Int),
    SVal.num (s.vsync : Int),
    SVal.num (s.vblank : Int),
    SVal.num (s.colors 0 : Int),
    SVal.num (s.colors 1 : Int),
    SVal.num (s.colors 2 : Int),
    SVal.num (s.colors 3 : Int),
    SVal.num (s.colors 4 : Int),
    SVal.num (s.colors 5 : Int),
    SVal.num (s.colors 6 : Int),
    SVal.num (s.colors 7 : Int),
    SVal.num (s.collision : Int),
    SVal.num (s.collisionEnabledMask : Int),
    SVal.bool s.dumpEnabled,
    SVal.num s.dumpDisabledCycle,
    SVal.num s.currentHMOVEPos,
    SVal.num s.previousHMOVEPos,
    SVal.bool s.hmoveBlankEnabled,
    SVal.num (s.frameCounter : Int),
    SVal.num (s.palFrameCounter : Int),
    SVal.num (s.playfield.ctrlpf : Int),
    SVal.num (s.playfield.pf : Int),
    SVal.num (s.playfield.priorityAndScore : Int),
    SVal.num (s.player0.core.hm : Int),
    SVal.bool s.player0.core.vdel,
    SVal.num s.player0.core.pos,
    SVal.num s.player0.core.motionClock,
    SVal.num s.player0.core.start,
    SVal.bool s.player0.core.hmmmr,
    SVal.num (s.player0.grp : Int),
    SVal.num (s.player0.dgrp : Int),
    SVal.num (s.player0.nusiz : Int),
    SVal.bool s.player0.refp,
    SVal.num (s.player0.suppress : Int),
    SVal.num (s.player0.currentGRP : Int),
    SVal.num (s.player1.core.hm : Int),
    SVal.bool s.player1.core.vdel,
    SVal.num s.player1.core.pos,
    SVal.num s.player1.core.motionClock,
    SVal.num s.player1.core.start,
    SVal.bool s.player1.core.hmmmr,
    SVal.num (s.player1.grp : Int),
    SVal.num (s.player1.dgrp : Int),
    SVal.num (s.player1.nusiz : Int),
    SVal.bool s.player1.refp,
    SVal.num (s.player1.suppress : Int),
    SVal.num (s.player1.currentGRP : Int),
    SVal.num (s.missile0.core.hm : Int),
    SVal.bool s.missile0.core.vdel,
    SVal.num s.missile0.core.pos,
    SVal.num s.missile0.core.motionClock,
    SVal.num s.missile0.core.start,
    SVal.bool s.missile0.core.hmmmr,
    SVal.bool s.missile0.enable,
    SVal.num (s.missile0.nusiz : Int),
    SVal.bool s.missile0.resmp,
    SVal.num (s.missile1.core.hm : Int),
    SVal.bool s.missile1.core.vdel,
    SVal.num s.missile1.core.pos,
    SVal.num s.missile1.core.motionClock,
    SVal.num s.missile1.core.start,
    SVal.bool s.missile1.core.hmmmr,
    SVal.bool s.missile1.enable,
    SVal.num (s.missile1.nusiz : Int),
    SVal.bool s.missile1.resmp,
    SVal.num (s.ball.core.hm : Int),
    SVal.bool s.ball.core.vdel,
    SVal.num s.ball.core.pos,
    SVal.num s.ball.core.motionClock,
    SVal.num s.ball.core.start,
    SVal.bool s.ball.core.hmmmr,
    SVal.bool s.ball.enable,
    SVal.num (s.ball.ctrlpf : Int),
    SVal.bool s.ball.denable,
    SVal.bool s.ball.currentEnabled,
    SVal.num 0 ]

/-- `TIA::save`: writes the tag and the items; the underlying storage is
modelled from the spec as a capacity `cap` of items, a write past it
throwing (caught and reported as `false`, leaving the stream truncated). -/
def tiaSave (cap : Nat) (s : TiaState) : Bool × List SVal :=
  let items := SVal.str tiaName :: tiaSaveBody s
  if items.length ≤ cap then (true, items) else (false, items.take cap)

lemma loadSeq_short (fs : List (TiaState → SVal → Option TiaState))
    (vs : List SVal) (s : TiaState) (h : vs.length < fs.length) :
    (loadSeq fs vs s).1 = false := by
  induction fs generalizing vs s with
  | nil => simp at h
  | cons f fs ih =>
    cases vs with
    | nil => rfl
    | cons v vs =>
      simp only [loadSeq]
      cases hf : f s v with
      | none => rfl
      | some s2 =>
        exact ih vs s2 (by simpa using Nat.lt_of_succ_lt_succ (by simpa using h))

lemma tiaSaveBody_length (t : TiaState) : (tiaSaveBody t).length = 83 := by
  simp [tiaSaveBody]

lemma tiaLoad_tag (rest : List SVal) (s : TiaState) :
    tiaLoad (SVal.str tiaName :: rest) s =
      (if (loadSeq tiaLoadSetters rest s).1 then
        (true, { (loadSeq tiaLoadSetters rest s).2 with
                 disabledObjects :=
                   (loadSeq tiaLoadSetters rest s).2.disabledObjects ||| 0x3F,
                 allowHMOVEBlanks := true })
      else (false, (loadSeq tiaLoadSetters rest s).2)) := by
  simp [tiaLoad]

lemma loadSeq_saveBody (t s : TiaState) :
    (loadSeq tiaLoadSetters (tiaSaveBody t) s).1 = true := by
  simp only [tiaSaveBody, tiaLoadSetters, loadSeq, setNum, setBool]

/-- **C9.** `load` returns `false` without touching the state if the stream
does not begin with the device tag `"TIA"`; it returns `false` on a
truncated stream (fewer than the 83 expected items after the tag); it
returns `true` on any complete stream of the shape `save` produces; `save`
succeeds exactly when the storage holds all 84 items, and a successful
`save` emits the tag followed by the field items. -/
theorem C9_save_load_error_semantics (stream : List SVal) (s t : TiaState)
    (cap : Nat)
    (hmis : ∀ rest : List SVal, stream ≠ SVal.str tiaName :: rest)
    (hcap : 84 ≤ cap) :
    tiaLoad stream s = (false, s) ∧
    (∀ rest : List SVal, rest.length < 83 →
      (tiaLoad (SVal.str tiaName :: rest) s).1 = false) ∧
    tiaSave cap t = (true, SVal.str tiaName :: tiaSaveBody t) ∧
    (tiaLoad (SVal.str tiaName :: tiaSaveBody t) s).1 = true ∧
    (∀ c : Nat, (tiaSave c t).1 = false ↔ c < 84) := by
  refine ⟨?_, ?_, ?_, ?_, ?_⟩
  · cases stream with
    | nil => rfl
    | cons v rest =>
      cases v with
      | str tag =>
        have htag : ¬tag = tiaName := fun h => hmis rest (by rw [h])
        simp [tiaLoad, htag]
      | num n => rfl
      | bool b => rfl
  · intro rest hlen
    have hshort : (loadSeq tiaLoadSetters rest s).1 = false :=
      loadSeq_short tiaLoadSetters rest s (by simpa using hlen)
    rw [tiaLoad_tag, hshort]
    rfl
  · simp only [tiaSave, List.length_cons, tiaSaveBody_length]
    rw [if_pos (by omega)]
  · rw [tiaLoad_tag, loadSeq_saveBody]
    rfl
  · intro c
    simp only [tiaSave, List.length_cons, tiaSaveBody_length]
    by_cases hc : 83 + 1 ≤ c
    · rw [if_pos hc]
      simp
      omega
    · rw [if_neg hc]
      simp
      omega

/-- Witness instantiating `C9_save_load_error_semantics`: a stream that
starts with a number instead of the tag, the power-on state on both sides,
and a storage of exactly 84 items. -/
theorem C9_save_load_error_semantics_witness :
    (∀ rest : List SVal, [SVal.num 0] ≠ SVal.str tiaName :: rest) ∧
    (tiaLoad [SVal.num 0] tiaS0 = (false, tiaS0) ∧
     (∀ rest : List SVal, rest.length < 83 →
       (tiaLoad (SVal.str tiaName :: rest) tiaS0).1 = false) ∧
     tiaSave 84 tiaS0 = (true, SVal.str tiaName :: tiaSaveBody tiaS0) ∧
     (tiaLoad (SVal.str tiaName :: tiaSaveBody tiaS0) tiaS0).1 = true ∧
     (∀ c : Nat, (tiaSave c tiaS0).1 = false ↔ c < 84)) :=
  ⟨fun rest h => by simp at h,
    C9_save_load_error_semantics [SVal.num 0] tiaS0 tiaS0 84
      (fun rest h => by simp at h) (by decide)⟩

end StellaTIA
